import Mathlib

/-!
# Verification of the SolidWorks MCP server (ForgeAI)

Shallow embedding of the repository's operations layer
(`src/solidworks/operations.py`), its data models (`src/solidworks/models.py`),
the connection manager (`src/solidworks/connection.py`) and the point
normalization of the MCP sketch tools (`src/mcp_tools/sketch_tools.py`).

Modelling conventions:
* Python floats are modelled as exact rationals (`ℚ`); where a claim is about
  IEEE-754 binary64 behaviour we additionally use `fl53`, an exact model of
  round-to-nearest-even at 53 significant bits (binary64 in the normal range).
* Every COM (external application) call is an entry of the behaviour structure
  `B`: its value is `Except String α`, `Except.error e` meaning the call raised
  an exception whose text is `e`.  Each call made is also recorded in a trace
  (`List CallEv`), so "no external call happens" is `trace = []`.
* Python `try/except` blocks become `tryOp` (inner handlers) and `runOp`
  (the per-operation boundary handler that turns an escaped exception into
  `OperationResult(success=False, message=prefix + text)`).
* COM objects always expose their standard attributes (`Name`, `GetTitle`,
  ...), so `hasattr` guards in the source are modelled as the attribute being
  present unless the source itself distinguishes the absent case in a way a
  claim depends on.
-/

namespace ForgeAI

/-! ## Python-style values (the payload of `OperationResult.data`) -/

/-- A JSON-serializable Python value, as produced by the operations layer for
the `data` payload.  `sqrtq q` stands for the float `math.sqrt` of the exact
rational `q` (used only for `draw_line`'s `length_mm`). -/
inductive DVal where
  | null : DVal
  | bool (b : Bool) : DVal
  | int (n : Int) : DVal
  | num (q : ℚ) : DVal
  | sqrtq (q : ℚ) : DVal
  | str (s : String) : DVal
  | arr (l : List DVal) : DVal
  | obj (l : List (String × DVal)) : DVal

/-- A Python dict with string keys, in insertion order. -/
abbrev PyDict := List (String × DVal)

/-- `OperationResult` from `src/solidworks/models.py` (lines 154-159):
the uniform envelope every operation returns. -/
structure OperationResult where
  success : Bool
  message : String
  feature_name : Option String := none
  data : Option PyDict := none

/-- `OperationResult(success=False, message=m)` — the failure envelope the
source builds at every local-validation and precondition failure. -/
def fail (m : String) : OperationResult := ⟨false, m, none, none⟩

/-! ## Unit conversion (`src/solidworks/models.py`, lines 162-174),
exact-rational model -/

def MM_TO_M : ℚ := 1/1000

def M_TO_MM : ℚ := 1000

/-- `mm_to_m`: convert millimeters to meters (`value * MM_TO_M`). -/
def mm_to_m (value : ℚ) : ℚ := value * MM_TO_M

/-- `m_to_mm`: convert meters to millimeters (`value * M_TO_MM`). -/
def m_to_mm (value : ℚ) : ℚ := value * M_TO_MM

/-! ## IEEE-754 binary64 rounding model

A positive binary64 float is represented as a pair `(m, e) : ℕ × ℤ` of value
`m · 2^e`, with `m` normalized into `[2^52, 2^53)` by rounding.  `roundPos a b`
rounds the positive rational `a / b` to the nearest binary64 value
(round-to-nearest, ties-to-even), modelled for the normal range: overflow and
subnormal underflow are not modelled (all values in the claims are far inside
the normal range).  Everything is `Nat`/`Int` arithmetic so the kernel can
evaluate it. -/

/-- A positive dyadic `(m, e)` of value `m · 2^e`. -/
abbrev Dy := ℕ × ℤ

/-- `a / b < 2^k`, by cross-multiplication (for `b ≠ 0`). -/
def ltPow2 (a b : ℕ) (k : ℤ) : Bool :=
  if 0 ≤ k then a < b * 2 ^ k.toNat else a * 2 ^ (-k).toNat < b

/-- `2^k ≤ a / b`, by cross-multiplication (for `b ≠ 0`). -/
def lePow2 (a b : ℕ) (k : ℤ) : Bool :=
  if 0 ≤ k then b * 2 ^ k.toNat ≤ a else b ≤ a * 2 ^ (-k).toNat

/-- Fuel-bounded search for the exponent `e` with `2^(52+e) ≤ a/b < 2^(53+e)`
for a positive rational `a/b`. -/
def findE53 : ℕ → ℕ → ℕ → ℤ → ℤ
  | 0, _, _, e => e
  | fuel + 1, a, b, e =>
      if ltPow2 a b (52 + e) then findE53 fuel a b (e - 1)
      else if lePow2 a b (53 + e) then findE53 fuel a b (e + 1)
      else e

/-- Round the positive rational `a / b` to 53 significant bits,
round-to-nearest with ties-to-even; returns the normalized pair `(m, e)`. -/
def roundPos (a b : ℕ) : Dy :=
  let e := findE53 3000 a b 0
  let A := a * 2 ^ (-e).toNat
  let Bd := b * 2 ^ e.toNat
  let n := A / Bd
  let r := A % Bd
  let m : ℕ :=
    if 2 * r < Bd then n
    else if Bd < 2 * r then n + 1
    else if n % 2 = 0 then n else n + 1
  (m, e)

/-- Round the positive dyadic `m · 2^e` to 53 significant bits. -/
def roundDy (m : ℕ) (e : ℤ) : Dy :=
  if 0 ≤ e then roundPos (m * 2 ^ e.toNat) 1 else roundPos m (2 ^ (-e).toNat)

/-- Whether two positive dyadics denote the same rational value. -/
def dyEqv (x y : Dy) : Bool :=
  x.1 * 2 ^ (x.2 - y.2).toNat = y.1 * 2 ^ (y.2 - x.2).toNat

/-- The rational value of a dyadic. -/
def dyVal (x : Dy) : ℚ :=
  if 0 ≤ x.2 then (x.1 : ℚ) * ((2 ^ x.2.toNat : ℕ) : ℚ)
  else (x.1 : ℚ) / ((2 ^ (-x.2).toNat : ℕ) : ℚ)

/-- The binary64 value of the literal `0.001` (= `MM_TO_M` in the source). -/
def c001 : Dy := roundPos 1 1000

/-- The binary64 value of the literal `0.9` (a millimeter input the host can
pass verbatim). -/
def d09 : Dy := roundPos 9 10

/-- `mm_to_m` as executed in binary64: one IEEE multiplication by the double
nearest `0.001` (`value * MM_TO_M` with `MM_TO_M = 0.001`). -/
def mm_to_mD (v : Dy) : Dy := roundDy (v.1 * c001.1) (v.2 + c001.2)

/-- `m_to_mm` as executed in binary64: one IEEE multiplication by `1000.0`
(which is exactly representable, `value * M_TO_MM`). -/
def m_to_mmD (v : Dy) : Dy := roundDy (v.1 * 1000) v.2

/-! ## String helpers (Python `in` and `str.upper` / `str.endswith`) -/

/-- `matchesAt pat l`: `pat` is an initial segment of `l`. -/
def matchesAt : List Char → List Char → Bool
  | [], _ => true
  | _ :: _, [] => false
  | p :: ps, c :: cs => p = c && matchesAt ps cs

/-- `containsSeq pat l`: `pat` occurs contiguously inside `l`
(Python's `pat in s` on the character lists). -/
def containsSeq : List Char → List Char → Bool
  | pat, [] => pat.isEmpty
  | pat, c :: cs => matchesAt pat (c :: cs) || containsSeq pat cs

/-- Python `pat in s` substring test on strings. -/
def strContains (s pat : String) : Bool := containsSeq pat.data s.data

/-- Python `s.upper()`, modelled character-wise. -/
def pyUpper (s : String) : String := ⟨s.data.map Char.toUpper⟩

/-- `endsSeq l pat`: `pat` is a final segment of `l`
(Python's `s.endswith(pat)` on the character lists). -/
def endsSeq (l pat : List Char) : Bool := matchesAt pat.reverse l.reverse

/-- Python `s.title()` for the single-word strings used by the source
(capitalize the first character). -/
def pyTitle (s : String) : String :=
  match s.data with
  | [] => ""
  | c :: cs => ⟨Char.toUpper c :: cs⟩

/-! ## External-call events and the operation monad

Every COM call an operation makes is recorded as a `CallEv`; numeric payloads
are the values actually forwarded (already converted to meters where the
source converts).  The polygon event omits the vertex point, which the source
derives from the radius by fixed trigonometry (`cos/sin` of `π/2`); no claim
refers to it. -/

inductive CallEv where
  | connectCall
  | getUserPref
  | newDocument (template : String)
  | getTitle
  | saveAs (path : String)
  | readActiveDoc
  | clearSelection
  | selectByID (planeName : String)
  | insertSketchCall
  | readActiveSketch
  | rebuild
  | createCenterRect (cx cy x2 y2 : ℚ)
  | createCornerRect (x1 y1 x2 y2 : ℚ)
  | createCircle (cx cy r : ℚ)
  | createLine (x1 y1 x2 y2 : ℚ)
  | createArc (cx cy sx sy ex ey : ℚ)
  | createPolygon (sides : ℤ) (cx cy r : ℚ)
  | createSpline2 (pts : List (ℚ × ℚ))
  | createSpline (pts : List (ℚ × ℚ))
  | featureExtrusion (flip : Bool) (endCond : ℕ) (depth : ℚ)
  | featureCut (flip : Bool) (endCond : ℕ) (depth : ℚ)
  | getBodies
  | selectEdge
  | featureFillet (radius : ℚ)
  | insertChamfer (dist : ℚ)
  | readActiveView
  | showNamedView
  | zoomToFit
  | readFrame
  | getHWnd
  | getPathName
  | getType
  | getSaveFlag
  | traverseFeatures
  deriving DecidableEq

/-- The trace of external calls an operation performed, in order. -/
abbrev Trace := List CallEv

/-- The operation monad: an exception-or-value plus the trace of external
calls made so far (calls made before a raise stay recorded). -/
abbrev OpM (α : Type) := Except String α × Trace

instance : Monad OpM where
  pure a := (Except.ok a, [])
  bind x f :=
    match x with
    | (Except.ok a, t) => ((f a).1, t ++ (f a).2)
    | (Except.error e, t) => (Except.error e, t)

@[simp] theorem opm_bind_ok {α β : Type} (a : α) (t : Trace) (f : α → OpM β) :
    (@Bind.bind OpM _ α β (Except.ok a, t) f) = ((f a).1, t ++ (f a).2) := rfl

@[simp] theorem opm_bind_err {α β : Type} (e : String) (t : Trace) (f : α → OpM β) :
    (@Bind.bind OpM _ α β (Except.error e, t) f) = (Except.error e, t) := rfl

@[simp] theorem opm_pure {α : Type} (a : α) :
    (@Pure.pure OpM _ α a) = (Except.ok a, []) := rfl

/-- Perform one external call: record the event, return the call's outcome
(`Except.error e` = the call raised an exception with text `e`). -/
def call {α : Type} (c : CallEv) (r : Except String α) : OpM α := (r, [c])

/-- A Python `try/except` block inside an operation body: run `x`; if it
raised, run the handler on the exception text. -/
def tryOp {α : Type} (x : OpM α) (h : String → OpM α) : OpM α :=
  match x with
  | (Except.ok a, t) => (Except.ok a, t)
  | (Except.error e, t) => ((h e).1, t ++ (h e).2)

/-- The operation-boundary `try/except` every operation wraps its body in:
an exception that reaches the boundary becomes
`OperationResult(success=False, message=pre + text)`. -/
def runOp (pre : String) (x : OpM OperationResult) : OperationResult × Trace :=
  match x with
  | (Except.ok r, t) => (r, t)
  | (Except.error e, t) => (fail (pre ++ e), t)

@[simp] theorem call_eq {α : Type} (c : CallEv) (r : Except String α) :
    call c r = (r, [c]) := rfl

@[simp] theorem tryOp_ok {α : Type} (a : α) (t : Trace) (h : String → OpM α) :
    tryOp (Except.ok a, t) h = (Except.ok a, t) := rfl

@[simp] theorem tryOp_err {α : Type} (e : String) (t : Trace) (h : String → OpM α) :
    tryOp (Except.error e, t) h = ((h e).1, t ++ (h e).2) := rfl

@[simp] theorem runOp_ok (pre : String) (r : OperationResult) (t : Trace) :
    runOp pre (Except.ok r, t) = (r, t) := rfl

@[simp] theorem runOp_err (pre : String) (e : String) (t : Trace) :
    runOp pre (Except.error e, t) = (fail (pre ++ e), t) := rfl

/-! ## The behaviour of the external application

One field per COM call the operations layer can make; `Except.error e` means
that call raises with text `e`.  Defaults describe a healthy application with
an open part document and an active sketch. -/

/-- One feature record yielded by the `FirstFeature`/`GetNextFeature`
traversal in `get_model_state`. -/
structure FeatRec where
  name : String
  typeName : String
  suppressed : Bool

structure B where
  /-- `conn.is_connected` as seen by the operations layer. -/
  connected : Bool := true
  /-- result of `conn.connect()` when `create_new_document` invokes it. -/
  connect_ok : Bool := true
  getUserPref : Except String String := Except.ok ("part.prtdot")
  newDocument : Except String (Option Unit) := Except.ok (some ())
  getTitle : Except String String := Except.ok ("Part1")
  /-- `app.ActiveDoc` (inside `conn.get_active_doc`, which catches raises). -/
  activeDoc : Except String (Option Unit) := Except.ok (some ())
  saveAs3 : Except String Bool := Except.ok true
  clearSelection : Except String Unit := Except.ok ()
  selectByID : Except String Bool := Except.ok true
  insertSketch : Except String Unit := Except.ok ()
  /-- `SketchManager.ActiveSketch`: name of the active sketch, if any. -/
  activeSketch : Except String (Option String) := Except.ok (some ("Sketch1"))
  editRebuild : Except String Unit := Except.ok ()
  /-- sketch-segment creators: `none` = returned `None`, `some n` = a
  segment array of length `n`. -/
  createCenterRect : Except String (Option ℕ) := Except.ok (some 4)
  createCornerRect : Except String (Option ℕ) := Except.ok (some 4)
  createCircle : Except String (Option Unit) := Except.ok (some ())
  createLine : Except String (Option Unit) := Except.ok (some ())
  createArc : Except String (Option Unit) := Except.ok (some ())
  createPolygon : Except String (Option ℕ) := Except.ok (some 6)
  createSpline2 : Except String (Option Unit) := Except.ok (some ())
  createSpline : Except String Bool := Except.ok true
  /-- feature creators: `none` = returned `None`; `some nm` = a feature
  object whose `Name` attribute is `nm` (or absent if `nm = none`). -/
  featureExtrusion2 : Except String (Option (Option String)) :=
    Except.ok (some (some ("Boss-Extrude1")))
  featureCut3 : Except String (Option (Option String)) :=
    Except.ok (some (some ("Cut-Extrude1")))
  /-- `GetBodies2(0, False)`: `none` = `None`; otherwise one entry per solid
  body giving its `GetEdges()` result (`none` = `None`, `some k` = `k`
  edges). -/
  getBodies : Except String (Option (List (Option ℕ))) :=
    Except.ok (some [some 12])
  featureFillet3 : Except String (Option (Option String)) :=
    Except.ok (some (some ("Fillet1")))
  insertFeatureChamfer : Except String (Option (Option String)) :=
    Except.ok (some (some ("Chamfer1")))
  activeView : Except String (Option Unit) := Except.ok (some ())
  showNamedView : Except String Unit := Except.ok ()
  zoomToFit : Except String Unit := Except.ok ()
  readFrame : Except String Unit := Except.ok ()
  /-- `frame.GetHWnd()`: `0` models both a missing handle and an absent
  attribute (falsy in the source either way). -/
  getHWnd : Except String ℕ := Except.ok 1
  getPathName : Except String String := Except.ok ("")
  getType : Except String ℤ := Except.ok 1
  getSaveFlag : Except String Bool := Except.ok false
  /-- the `FirstFeature`/`GetNextFeature` walk; an exception is caught and
  leaves the collected list empty. -/
  features : Except String (List FeatRec) := Except.ok []

/-! ## SolidWorks API constants (`operations.py`, lines 34-58) -/

def SW_DOC_PART : ℤ := 1

def SW_DOC_ASSEMBLY : ℤ := 2

def SW_DOC_DRAWING : ℤ := 3

def SW_END_CONDITION_BLIND : ℕ := 0

def SW_END_CONDITION_MID_PLANE : ℕ := 6

/-- `PlaneType` from `models.py` (lines 17-21). -/
inductive PlaneType where
  | front
  | top
  | right
  deriving DecidableEq

/-- The `.value` of the plane enum ("Front Plane" etc.). -/
def PlaneType.value : PlaneType → String
  | .front => "Front Plane"
  | .top => "Top Plane"
  | .right => "Right Plane"

/-! ## Helper functions (`operations.py`, lines 65-111) -/

/-- `_get_active_doc`: `(document?, error message)`.  The connection layer's
`get_active_doc` catches its own exceptions and returns `None`. -/
def getActiveDocH (b : B) : OpM (Option Unit × String) :=
  if b.connected = false then
    pure (none, "Not connected to SolidWorks. Please connect first.")
  else do
    let d ← tryOp (call CallEv.readActiveDoc b.activeDoc) (fun _ => pure none)
    match d with
    | none =>
        pure (none,
          "No document is open. Use create_new_part() to create a new part first.")
    | some _ => pure (some (), "")

/-- `_get_active_sketch`: `(sketch name?, error message)`; its `try/except`
turns a raise into a message embedding the exception text. -/
def getActiveSketchH (b : B) : OpM (Option String × String) :=
  tryOp
    (do
      let s ← call CallEv.readActiveSketch b.activeSketch
      match s with
      | none =>
          pure (none,
            "No active sketch. Use create_sketch() to start a new sketch first.")
      | some sk => pure (some sk, ""))
    (fun e => pure (none, "Failed to get active sketch: " ++ e))

/-- `_rebuild_model`: `EditRebuild3`, catching any raise (returns whether the
rebuild succeeded; the caller ignores failure). -/
def rebuildModelH (b : B) : OpM Bool :=
  tryOp
    (do
      let _ ← call CallEv.rebuild b.editRebuild
      pure true)
    (fun _ => pure false)

/-! ## Document operations (`operations.py`, lines 118-223) -/

/-- `create_new_document(template_path)`. -/
def create_new_document (b : B) (template_path : Option String) :
    OperationResult × Trace :=
  runOp ("Failed to create new document: ") (do
    let ok ← if b.connected then pure true else call CallEv.connectCall (Except.ok b.connect_ok)
    if ok = false then
      pure (fail ("Failed to connect to SolidWorks. Is it running?"))
    else do
      let tp ← match template_path with
        | some p => pure p
        | none => do
            let t ← call CallEv.getUserPref b.getUserPref
            pure (if t = "" then "" else t)
      let d ← call (CallEv.newDocument tp) b.newDocument
      match d with
      | none => pure (fail ("Failed to create new document. Check template path."))
      | some _ => do
          let doc_name ← call CallEv.getTitle b.getTitle
          pure { success := true
                 message := "Created new part: " ++ doc_name
                 data := some [("document", DVal.obj
                   [("name", DVal.str doc_name), ("type", DVal.str ("part")),
                    ("path", DVal.null), ("is_modified", DVal.bool false)])] })

/-- The path actually forwarded by `save_document`: the `.SLDPRT` extension
is appended when `file_path.upper()` does not already end with it
(`operations.py`, lines 195-197). -/
def normalizeSavePath (file_path : String) : String :=
  if endsSeq (pyUpper file_path).data (".SLDPRT").data then file_path
  else file_path ++ ".SLDPRT"

/-- `save_document(file_path)`. -/
def save_document (b : B) (file_path : String) : OperationResult × Trace :=
  runOp ("Failed to save document: ") (do
    let (d, err) ← getActiveDocH b
    match d with
    | none => pure (fail err)
    | some _ => do
        let path := normalizeSavePath file_path
        let result ← call (CallEv.saveAs path) b.saveAs3
        if result then
          pure { success := true
                 message := "Saved to: " ++ path
                 data := some [("path", DVal.str path)] }
        else
          pure (fail ("Failed to save document. Check if path is writable: " ++ path)))

/-! ## Sketch lifecycle operations (`operations.py`, lines 230-383) -/

/-- `select_plane(plane)`. -/
def select_plane (b : B) (plane : PlaneType) : OperationResult × Trace :=
  runOp ("Failed to select plane: ") (do
    let (d, err) ← getActiveDocH b
    match d with
    | none => pure (fail err)
    | some _ => do
        let _ ← call CallEv.clearSelection b.clearSelection
        let selected ← call (CallEv.selectByID plane.value) b.selectByID
        if selected then
          pure { success := true, message := "Selected " ++ plane.value }
        else
          pure (fail ("Failed to select " ++ plane.value ++ ". Plane may not exist.")))

/-- `insert_sketch()`. -/
def insert_sketch (b : B) : OperationResult × Trace :=
  runOp ("Failed to insert sketch: ") (do
    let (d, err) ← getActiveDocH b
    match d with
    | none => pure (fail err)
    | some _ => do
        let _ ← call CallEv.insertSketchCall b.insertSketch
        let s ← call CallEv.readActiveSketch b.activeSketch
        match s with
        | none => pure (fail ("Failed to insert sketch. Make sure a plane is selected."))
        | some sketch_name =>
            pure { success := true
                   message := "Started sketch: " ++ sketch_name
                   feature_name := some sketch_name })

/-- `create_sketch(plane)`: `select_plane` then, only on its success,
`insert_sketch`; a selection failure is returned as-is. -/
def create_sketch (b : B) (plane : PlaneType) : OperationResult × Trace :=
  let (select_result, t1) := select_plane b plane
  if select_result.success then
    let (r2, t2) := insert_sketch b
    (r2, t1 ++ t2)
  else (select_result, t1)

/-- `exit_sketch()`: reads the active sketch name, toggles sketch mode with
`InsertSketch(True)` (unconditionally), rebuilds, and reports success either
way. -/
def exit_sketch (b : B) : OperationResult × Trace :=
  runOp ("Failed to exit sketch: ") (do
    let (d, err) ← getActiveDocH b
    match d with
    | none => pure (fail err)
    | some _ => do
        let sketch_name ← call CallEv.readActiveSketch b.activeSketch
        let _ ← call CallEv.insertSketchCall b.insertSketch
        let _ ← rebuildModelH b
        match sketch_name with
        | some nm =>
            pure { success := true
                   message := "Closed sketch: " ++ nm
                   feature_name := some nm }
        | none => pure { success := true, message := "Exited sketch mode" })

/-! ## Sketch entity operations (`operations.py`, lines 390-802) -/

/-- Truthiness of a segment-array result (`segments is not None and
len(segments) > 0`). -/
def segTruthy : Option ℕ → Bool
  | none => false
  | some n => 0 < n

/-- `draw_rectangle(center_x, center_y, width, height)`. -/
def draw_rectangle (b : B) (center_x center_y width height : ℚ) :
    OperationResult × Trace :=
  if width ≤ 0 ∨ height ≤ 0 then
    (fail ("Width and height must be positive. Got width=" ++ toString width ++
      ", height=" ++ toString height), [])
  else
    runOp ("Failed to draw rectangle: ") (do
      let (d, err) ← getActiveDocH b
      match d with
      | none => pure (fail err)
      | some _ => do
          let (sk, errs) ← getActiveSketchH b
          match sk with
          | none => pure (fail errs)
          | some _ => do
              let cx_m := mm_to_m center_x
              let cy_m := mm_to_m center_y
              let half_w := mm_to_m width / 2
              let half_h := mm_to_m height / 2
              let x1 := cx_m - half_w
              let y1 := cy_m - half_h
              let x2 := cx_m + half_w
              let y2 := cy_m + half_h
              let segments ← call (CallEv.createCenterRect cx_m cy_m x2 y2) b.createCenterRect
              let segments ←
                if segments = none ∨ segments = some 0 then
                  call (CallEv.createCornerRect x1 y1 x2 y2) b.createCornerRect
                else pure segments
              if segTruthy segments then
                pure { success := true
                       message := "Drew " ++ toString width ++ "x" ++ toString height ++
                         "mm rectangle at (" ++ toString center_x ++ ", " ++
                         toString center_y ++ ")"
                       data := some [("width_mm", DVal.num width),
                                     ("height_mm", DVal.num height)] }
              else pure (fail ("Failed to draw rectangle")))

/-- `draw_circle(center_x, center_y, radius)`. -/
def draw_circle (b : B) (center_x center_y radius : ℚ) : OperationResult × Trace :=
  if radius ≤ 0 then
    (fail ("Radius must be positive. Got radius=" ++ toString radius), [])
  else
    runOp ("Failed to draw circle: ") (do
      let (d, err) ← getActiveDocH b
      match d with
      | none => pure (fail err)
      | some _ => do
          let (sk, errs) ← getActiveSketchH b
          match sk with
          | none => pure (fail errs)
          | some _ => do
              let cx_m := mm_to_m center_x
              let cy_m := mm_to_m center_y
              let r_m := mm_to_m radius
              let segment ← call (CallEv.createCircle cx_m cy_m r_m) b.createCircle
              match segment with
              | some _ =>
                  pure { success := true
                         message := "Drew circle with radius " ++ toString radius ++
                           "mm at (" ++ toString center_x ++ ", " ++ toString center_y ++ ")"
                         data := some [("radius_mm", DVal.num radius)] }
              | none => pure (fail ("Failed to draw circle")))

/-- `draw_line(x1, y1, x2, y2)`; `length_mm` is `math.sqrt` of the exact
sum of squares, kept symbolic via `DVal.sqrtq`. -/
def draw_line (b : B) (x1 y1 x2 y2 : ℚ) : OperationResult × Trace :=
  runOp ("Failed to draw line: ") (do
    let (d, err) ← getActiveDocH b
    match d with
    | none => pure (fail err)
    | some _ => do
        let (sk, errs) ← getActiveSketchH b
        match sk with
        | none => pure (fail errs)
        | some _ => do
            let x1_m := mm_to_m x1
            let y1_m := mm_to_m y1
            let x2_m := mm_to_m x2
            let y2_m := mm_to_m y2
            let segment ← call (CallEv.createLine x1_m y1_m x2_m y2_m) b.createLine
            match segment with
            | some _ =>
                pure { success := true
                       message := "Drew line from (" ++ toString x1 ++ ", " ++ toString y1 ++
                         ") to (" ++ toString x2 ++ ", " ++ toString y2 ++ ") mm"
                       data := some [("length_mm",
                         DVal.sqrtq ((x2 - x1) ^ 2 + (y2 - y1) ^ 2))] }
            | none => pure (fail ("Failed to draw line")))

/-- `draw_arc(center_x, center_y, start_x, start_y, end_x, end_y)`. -/
def draw_arc (b : B) (center_x center_y start_x start_y end_x end_y : ℚ) :
    OperationResult × Trace :=
  runOp ("Failed to draw arc: ") (do
    let (d, err) ← getActiveDocH b
    match d with
    | none => pure (fail err)
    | some _ => do
        let (sk, errs) ← getActiveSketchH b
        match sk with
        | none => pure (fail errs)
        | some _ => do
            let cx_m := mm_to_m center_x
            let cy_m := mm_to_m center_y
            let sx_m := mm_to_m start_x
            let sy_m := mm_to_m start_y
            let ex_m := mm_to_m end_x
            let ey_m := mm_to_m end_y
            let segment ← call (CallEv.createArc cx_m cy_m sx_m sy_m ex_m ey_m) b.createArc
            match segment with
            | some _ =>
                pure { success := true
                       message := "Drew arc from (" ++ toString start_x ++ ", " ++
                         toString start_y ++ ") to (" ++ toString end_x ++ ", " ++
                         toString end_y ++ ") centered at (" ++ toString center_x ++
                         ", " ++ toString center_y ++ ")"
                       data := some [("center", DVal.obj
                         [("x", DVal.num center_x), ("y", DVal.num center_y)])] }
            | none => pure (fail ("Failed to draw arc")))

/-- `draw_polygon(center_x, center_y, radius, sides)`: the `sides < 3` check
comes first, then the `radius <= 0` check, exactly as in the source. -/
def draw_polygon (b : B) (center_x center_y radius : ℚ) (sides : ℤ) :
    OperationResult × Trace :=
  if sides < 3 then
    (fail ("Polygon must have at least 3 sides. Got sides=" ++ toString sides), [])
  else if radius ≤ 0 then
    (fail ("Radius must be positive. Got radius=" ++ toString radius), [])
  else
    runOp ("Failed to draw polygon: ") (do
      let (d, err) ← getActiveDocH b
      match d with
      | none => pure (fail err)
      | some _ => do
          let (sk, errs) ← getActiveSketchH b
          match sk with
          | none => pure (fail errs)
          | some _ => do
              let cx_m := mm_to_m center_x
              let cy_m := mm_to_m center_y
              let r_m := mm_to_m radius
              let segments ← call (CallEv.createPolygon sides cx_m cy_m r_m) b.createPolygon
              if segTruthy segments then
                pure { success := true
                       message := "Drew " ++ toString sides ++ "-sided polygon with radius " ++
                         toString radius ++ "mm at (" ++ toString center_x ++ ", " ++
                         toString center_y ++ ")"
                       data := some [("sides", DVal.int sides),
                                     ("radius_mm", DVal.num radius)] }
              else pure (fail ("Failed to draw polygon")))

/-- `draw_spline(points)`: first `CreateSpline2` inside a local
`try/except` (a raise falls back), then `CreateSpline` inside a second local
`try/except`; both failing yields the final failure result. -/
def draw_spline (b : B) (points : List (ℚ × ℚ)) : OperationResult × Trace :=
  if points.length < 2 then
    (fail ("Spline requires at least 2 points. Got " ++ toString points.length ++
      " points."), [])
  else
    runOp ("Failed to draw spline: ") (do
      let (d, err) ← getActiveDocH b
      match d with
      | none => pure (fail err)
      | some _ => do
          let (sk, errs) ← getActiveSketchH b
          match sk with
          | none => pure (fail errs)
          | some _ => do
              let ptsM := points.map (fun p => (mm_to_m p.1, mm_to_m p.2))
              let segment ← tryOp
                (call (CallEv.createSpline2 ptsM) b.createSpline2)
                (fun _ => pure none)
              match segment with
              | some _ =>
                  pure { success := true
                         message := "Drew spline through " ++ toString points.length ++
                           " points"
                         data := some [("point_count", DVal.int points.length)] }
              | none => do
                  let fb ← tryOp
                    (do
                      let result ← call (CallEv.createSpline ptsM) b.createSpline
                      if result then
                        pure (some { success := true
                                     message := "Drew spline through " ++
                                       toString points.length ++ " points"
                                     data := some [("point_count",
                                       DVal.int points.length)] : OperationResult })
                      else pure none)
                    (fun _ => pure none)
                  match fb with
                  | some r => pure r
                  | none =>
                      pure (fail
                        ("Failed to draw spline. Try using multiple line segments instead.")))

/-! ## Feature operations (`operations.py`, lines 809-1140) -/

/-- `extrude(depth, operation, direction)`. -/
def extrude (b : B) (depth : ℚ) (operation direction : String) :
    OperationResult × Trace :=
  if depth ≤ 0 then
    (fail ("Depth must be positive. Got depth=" ++ toString depth), [])
  else if operation ≠ "boss" ∧ operation ≠ "cut" then
    (fail ("Operation must be \x27boss\x27 or \x27cut\x27. Got: " ++ operation), [])
  else if direction ≠ "forward" ∧ direction ≠ "backward" ∧ direction ≠ "both" then
    (fail ("Direction must be \x27forward\x27, \x27backward\x27, or \x27both\x27. Got: " ++
      direction), [])
  else
    runOp ("Failed to extrude: ") (do
      let (d, err) ← getActiveDocH b
      match d with
      | none => pure (fail err)
      | some _ => do
          let depth_m := mm_to_m depth
          let dir1_end :=
            if direction = "both" then SW_END_CONDITION_MID_PLANE
            else SW_END_CONDITION_BLIND
          let feature ←
            if operation = "boss" then
              call (CallEv.featureExtrusion (direction = "backward") dir1_end depth_m)
                b.featureExtrusion2
            else
              call (CallEv.featureCut (direction = "backward") dir1_end depth_m)
                b.featureCut3
          match feature with
          | none =>
              pure (fail
                ("Failed to create extrusion. Make sure a closed sketch profile exists."))
          | some nmAttr => do
              let _ ← rebuildModelH b
              let feature_name := match nmAttr with
                | some n => n
                | none => pyTitle operation
              pure { success := true
                     message := "Extruded " ++ toString depth ++ "mm (" ++ operation ++ ")"
                     feature_name := some feature_name
                     data := some [("depth_mm", DVal.num depth),
                                   ("operation", DVal.str operation),
                                   ("direction", DVal.str direction)] })

/-- The edge-selection loop shared by `fillet` and `chamfer`: one `Select4`
per edge of each solid body, returning the running `edge_count`. -/
def selectAllEdges : List (Option ℕ) → OpM ℕ
  | [] => pure 0
  | body :: rest => do
      let k := match body with
        | none => 0
        | some n => n
      let _ ← ((Except.ok (), List.replicate k CallEv.selectEdge) : OpM Unit)
      let m ← selectAllEdges rest
      pure (k + m)

/-- `fillet(radius)`. -/
def fillet (b : B) (radius : ℚ) : OperationResult × Trace :=
  if radius ≤ 0 then
    (fail ("Radius must be positive. Got radius=" ++ toString radius), [])
  else
    runOp ("Failed to create fillet: ") (do
      let (d, err) ← getActiveDocH b
      match d with
      | none => pure (fail err)
      | some _ => do
          let radius_m := mm_to_m radius
          let _ ← call CallEv.clearSelection b.clearSelection
          let bodies ← call CallEv.getBodies b.getBodies
          match bodies with
          | none =>
              pure (fail ("No solid bodies found. Create geometry first using extrude."))
          | some bs =>
              if bs.length = 0 then
                pure (fail ("No solid bodies found. Create geometry first using extrude."))
              else do
                let edge_count ← selectAllEdges bs
                if edge_count = 0 then
                  pure (fail ("No edges found to fillet."))
                else do
                  let feature ← call (CallEv.featureFillet radius_m) b.featureFillet3
                  match feature with
                  | none =>
                      pure (fail
                        ("Failed to create fillet. Radius may be too large for edge geometry."))
                  | some nmAttr => do
                      let _ ← rebuildModelH b
                      let feature_name := match nmAttr with
                        | some n => n
                        | none => "Fillet"
                      pure { success := true
                             message := "Applied " ++ toString radius ++ "mm fillet to " ++
                               toString edge_count ++ " edges"
                             feature_name := some feature_name
                             data := some [("radius_mm", DVal.num radius),
                                           ("edge_count", DVal.int edge_count)] })

/-- `chamfer(distance)`. -/
def chamfer (b : B) (distance : ℚ) : OperationResult × Trace :=
  if distance ≤ 0 then
    (fail ("Distance must be positive. Got distance=" ++ toString distance), [])
  else
    runOp ("Failed to create chamfer: ") (do
      let (d, err) ← getActiveDocH b
      match d with
      | none => pure (fail err)
      | some _ => do
          let distance_m := mm_to_m distance
          let _ ← call CallEv.clearSelection b.clearSelection
          let bodies ← call CallEv.getBodies b.getBodies
          match bodies with
          | none =>
              pure (fail ("No solid bodies found. Create geometry first using extrude."))
          | some bs =>
              if bs.length = 0 then
                pure (fail ("No solid bodies found. Create geometry first using extrude."))
              else do
                let edge_count ← selectAllEdges bs
                if edge_count = 0 then
                  pure (fail ("No edges found to chamfer."))
                else do
                  let feature ← call (CallEv.insertChamfer distance_m) b.insertFeatureChamfer
                  match feature with
                  | none =>
                      pure (fail
                        ("Failed to create chamfer. Distance may be too large for edge geometry."))
                  | some nmAttr => do
                      let _ ← rebuildModelH b
                      let feature_name := match nmAttr with
                        | some n => n
                        | none => "Chamfer"
                      pure { success := true
                             message := "Applied " ++ toString distance ++ "mm chamfer to " ++
                               toString edge_count ++ " edges"
                             feature_name := some feature_name
                             data := some [("distance_mm", DVal.num distance),
                                           ("edge_count", DVal.int edge_count)] })

/-! ## Utility operations (`operations.py`, lines 1147-1321) -/

/-- `capture_screenshot()`. -/
def capture_screenshot (b : B) : OperationResult × Trace :=
  runOp ("Failed to capture screenshot: ") (do
    let (d, err) ← getActiveDocH b
    match d with
    | none => pure (fail err)
    | some _ => do
        let view ← call CallEv.readActiveView b.activeView
        match view with
        | none => pure (fail ("No active view available for screenshot."))
        | some _ => do
            let _ ← tryOp (call CallEv.showNamedView b.showNamedView) (fun _ => pure ())
            let _ ← tryOp (call CallEv.zoomToFit b.zoomToFit) (fun _ => pure ())
            let _ ← call CallEv.readFrame b.readFrame
            let shot ← tryOp
              (do
                let hwnd ← call CallEv.getHWnd b.getHWnd
                if hwnd ≠ 0 then
                  pure (some { success := true
                               message := "Screenshot captured (view set to isometric, zoomed to fit)"
                               data := some [("note",
                                 DVal.str ("Full screenshot implementation requires win32gui/PIL")),
                                 ("view", DVal.str ("isometric")),
                                 ("fit", DVal.bool true)] : OperationResult })
                else pure none)
              (fun _ => pure none)
            match shot with
            | some r => pure r
            | none =>
                pure { success := true
                       message := "View prepared for screenshot (isometric, zoom to fit)"
                       data := some [("view", DVal.str ("isometric")),
                                     ("fit", DVal.bool true)] })

/-- `model_dump()` of one `FeatureInfo`. -/
def featDump (f : FeatRec) : DVal :=
  DVal.obj [("name", DVal.str f.name), ("type", DVal.str f.typeName),
            ("is_suppressed", DVal.bool f.suppressed)]

/-- `model_dump()` of one `SketchInfo` as built by `get_model_state`. -/
def sketchDump (f : FeatRec) : DVal :=
  DVal.obj [("name", DVal.str f.name), ("plane", DVal.str ("Unknown")),
            ("entity_count", DVal.int 0), ("is_fully_defined", DVal.bool false)]

/-- `model_dump()` of the `ModelState` built by `get_model_state`. -/
def modelStateDump (doc_name doc_type doc_path : String) (modified : Bool)
    (features sketches : List FeatRec) (active : Option String) : DVal :=
  DVal.obj
    [("document", DVal.obj
       [("name", DVal.str doc_name), ("type", DVal.str doc_type),
        ("path", if doc_path = "" then DVal.null else DVal.str doc_path),
        ("is_modified", DVal.bool modified)]),
     ("bounding_box", DVal.null),
     ("mass_properties", DVal.null),
     ("features", DVal.arr (features.map featDump)),
     ("sketches", DVal.arr (sketches.map sketchDump)),
     ("active_sketch", match active with
       | none => DVal.null
       | some s => DVal.str s)]

/-- `get_model_state()`.  Note the precondition-failure branch populates
`data` with `{"model_state": None}`. -/
def get_model_state (b : B) : OperationResult × Trace :=
  runOp ("Failed to get model state: ") (do
    let (d, err) ← getActiveDocH b
    match d with
    | none =>
        pure { success := false
               message := err
               data := some [("model_state", DVal.null)] }
    | some _ => do
        let doc_name ← call CallEv.getTitle b.getTitle
        let doc_path ← call CallEv.getPathName b.getPathName
        let doc_type_int ← call CallEv.getType b.getType
        let doc_type :=
          if doc_type_int = SW_DOC_PART then "part"
          else if doc_type_int = SW_DOC_ASSEMBLY then "assembly"
          else if doc_type_int = SW_DOC_DRAWING then "drawing"
          else "unknown"
        let save_flag ← call CallEv.getSaveFlag b.getSaveFlag
        let allFeats ← tryOp (call CallEv.traverseFeatures b.features) (fun _ => pure [])
        let features := allFeats.filter (fun f =>
          !((["OriginProfileFeature", "RefPlane", "RefAxis"] : List String).contains
            f.typeName))
        let sketches := features.filter (fun f =>
          containsSeq ("Sketch").data f.typeName.data)
        let active ← tryOp (call CallEv.readActiveSketch b.activeSketch)
          (fun _ => pure none)
        pure { success := true
               message := "Model state retrieved: " ++ doc_name
               data := some [("model_state",
                 modelStateDump doc_name doc_type doc_path save_flag
                   features sketches active)] })

/-! ## MCP sketch-tool point normalization
(`src/mcp_tools/sketch_tools.py`, lines 44-70) -/

/-- A JSON point value as the tool layer receives it: a keyed mapping, an
ordered sequence, or anything else. -/
inductive PyPoint where
  | dict (fields : List (String × ℚ))
  | seq (xs : List ℚ)
  | other

/-- `_coerce_point(point)`: a mapping containing keys `x` and `y`, or a
list/tuple of length at least 2 (extra entries ignored); anything else is
`None`. -/
def coerce_point : PyPoint → Option (ℚ × ℚ)
  | PyPoint.dict fields =>
      match fields.lookup "x", fields.lookup "y" with
      | some x, some y => some (x, y)
      | _, _ => none
  | PyPoint.seq xs =>
      if 2 ≤ xs.length then some (xs.getD 0 0, xs.getD 1 0) else none
  | PyPoint.other => none

/-- The element-wise coercion loop of `_normalize_points`: first failure
aborts. -/
def coerceAll : List PyPoint → Option (List (ℚ × ℚ))
  | [] => some []
  | p :: ps =>
      match coerce_point p with
      | none => none
      | some q =>
          match coerceAll ps with
          | none => none
          | some qs => some (q :: qs)

/-- `_normalize_points(points)`: `(parsed?, error message?)`. -/
def normalize_points (points : List PyPoint) :
    Option (List (ℚ × ℚ)) × Option String :=
  if points.length = 0 then
    (none, some ("points is required. Provide at least 2 points with x/y coordinates."))
  else
    match coerceAll points with
    | none => (none, some ("Each point must be a dict with x/y or a list/tuple of [x, y]."))
    | some parsed =>
        if parsed.length < 2 then (none, some ("Spline requires at least 2 points."))
        else (some parsed, none)

/-! ## Connection manager (`src/solidworks/connection.py`)

`SolidWorksConnection` is modelled as a state (`ConnSt`): the held handle, the
`_is_connected` flag, and counters indexing the environment's call streams.
The environment (`ConnEnv`) gives the outcome of each successive COM
`Dispatch` and each handle carries the outcomes of its successive
`RevisionNumber` reads (the health probe).  Every method returns a value, a
new state and the list of environment interactions — a raise inside a method
is an `Except.error` in the stream, never an escape, matching the source's
`try/except` structure. -/

/-- A handle to the running application: `probe k` is the outcome of the
`k`-th `RevisionNumber` read made through the manager. -/
structure Handle where
  probe : ℕ → Except String String

/-- Environment of the manager: successive `Dispatch` outcomes plus the
visibility / frame-state setters used during launch. -/
structure ConnEnv where
  dispatch : ℕ → Except String Handle
  setVisible : Except String Unit := Except.ok ()
  setFrame : Except String Unit := Except.ok ()

/-- The configuration fields the manager reads
(`config.solidworks.{timeout, auto_launch, visible}`). -/
structure SWConfig where
  timeout : ℕ := 60
  auto_launch : Bool := true
  visible : Bool := true

/-- Environment interaction events of the connection manager. -/
inductive CEv where
  | dispatchEv
  | probeEv
  | visibleEv
  | frameEv
  deriving DecidableEq

/-- `SolidWorksConnection.__init__`: `_app = None`, `_is_connected = False`. -/
structure ConnSt where
  app : Option Handle
  isConn : Bool
  probeCt : ℕ
  dispCt : ℕ

def ConnSt.initial : ConnSt := ⟨none, false, 0, 0⟩

/-- The `is_connected` property: `_is_connected and _app is not None`. -/
def is_connected (s : ConnSt) : Bool := s.isConn && s.app.isSome

/-- `check_connection()`: re-probe; a raise is caught, flips
`_is_connected` to `False` and reports `False`. -/
def check_connection (s : ConnSt) : Bool × ConnSt × List CEv :=
  match s.app, s.isConn with
  | none, _ => (false, s, [])
  | some _, false => (false, s, [])
  | some h, true =>
      match h.probe s.probeCt with
      | Except.ok _ => (true, { s with probeCt := s.probeCt + 1 }, [CEv.probeEv])
      | Except.error _ =>
          (false, { s with isConn := false, probeCt := s.probeCt + 1 }, [CEv.probeEv])

/-- `_connect_to_running()`: `Dispatch`, then a test probe, then a second
`RevisionNumber` read for the log line; any raise resets `_app`/
`_is_connected`. -/
def connectToRunning (env : ConnEnv) (s : ConnSt) : Bool × ConnSt × List CEv :=
  match env.dispatch s.dispCt with
  | Except.error _ =>
      (false, { s with app := none, isConn := false, dispCt := s.dispCt + 1 },
        [CEv.dispatchEv])
  | Except.ok h =>
      match h.probe s.probeCt with
      | Except.error _ =>
          (false,
            { s with
              app := none
              isConn := false
              dispCt := s.dispCt + 1
              probeCt := s.probeCt + 1 },
            [CEv.dispatchEv, CEv.probeEv])
      | Except.ok _ =>
          match h.probe (s.probeCt + 1) with
          | Except.error _ =>
              (false,
                { s with
                  app := none
                  isConn := false
                  dispCt := s.dispCt + 1
                  probeCt := s.probeCt + 2 },
                [CEv.dispatchEv, CEv.probeEv, CEv.probeEv])
          | Except.ok _ =>
              (true,
                { s with
                  app := some h
                  isConn := true
                  dispCt := s.dispCt + 1
                  probeCt := s.probeCt + 2 },
                [CEv.dispatchEv, CEv.probeEv, CEv.probeEv])

/-- The polling loop of `_launch_and_connect`, one iteration per elapsed
second up to the timeout.  A raise from the probe or the visibility setter is
caught by the loop's `try/except` (sleep, retry); the frame-state setter has
its own inner `try/except` and never fails the iteration. -/
def launchLoop (env : ConnEnv) (cfg : SWConfig) (h : Handle) :
    ℕ → ConnSt → Bool × ConnSt × List CEv
  | 0, s => (false, { s with app := none }, [])
  | fuel + 1, s =>
      match h.probe s.probeCt with
      | Except.error _ =>
          let (r, s2, t) := launchLoop env cfg h fuel { s with probeCt := s.probeCt + 1 }
          (r, s2, CEv.probeEv :: t)
      | Except.ok _ =>
          if cfg.visible then
            match env.setVisible with
            | Except.error _ =>
                let (r, s2, t) := launchLoop env cfg h fuel { s with probeCt := s.probeCt + 1 }
                (r, s2, CEv.probeEv :: CEv.visibleEv :: t)
            | Except.ok _ =>
                (true, { s with isConn := true, probeCt := s.probeCt + 1 },
                  [CEv.probeEv, CEv.visibleEv, CEv.frameEv])
          else
            (true, { s with isConn := true, probeCt := s.probeCt + 1 },
              [CEv.probeEv, CEv.frameEv])

/-- `_launch_and_connect(timeout)`. -/
def launchAndConnect (env : ConnEnv) (cfg : SWConfig) (timeout : ℕ) (s : ConnSt) :
    Bool × ConnSt × List CEv :=
  match env.dispatch s.dispCt with
  | Except.error _ =>
      (false, { s with app := none, isConn := false, dispCt := s.dispCt + 1 },
        [CEv.dispatchEv])
  | Except.ok h =>
      let (r, s2, t) := launchLoop env cfg h timeout
        { s with app := some h, dispCt := s.dispCt + 1 }
      (r, s2, CEv.dispatchEv :: t)

/-- Python's `timeout = timeout or self._config.solidworks.timeout`
(`None` and `0` both fall back to the configured default). -/
def resolveTimeout (cfg : SWConfig) (timeout : Option ℕ) : ℕ :=
  match timeout with
  | none => cfg.timeout
  | some k => if k = 0 then cfg.timeout else k

/-- The adopt-or-launch sequence of `connect()` (everything after its
early `is_connected` return). -/
def connectAttempt (env : ConnEnv) (cfg : SWConfig) (timeout : Option ℕ)
    (s : ConnSt) : Bool × ConnSt × List CEv :=
  let t := resolveTimeout cfg timeout
  let (r1, s1, tr1) := connectToRunning env s
  if r1 then (true, s1, tr1)
  else if cfg.auto_launch then
    let (r2, s2, tr2) := launchAndConnect env cfg t s1
    (r2, s2, tr1 ++ tr2)
  else (false, s1, tr1)

/-- `connect(timeout)`. -/
def connect (env : ConnEnv) (cfg : SWConfig) (timeout : Option ℕ) (s : ConnSt) :
    Bool × ConnSt × List CEv :=
  if is_connected s then (true, s, [])
  else connectAttempt env cfg timeout s

/-- `disconnect()`: release the handle if one is held; idempotent. -/
def disconnect (s : ConnSt) : ConnSt :=
  match s.app with
  | none => s
  | some _ => { s with app := none, isConn := false }

/-- `reconnect(timeout)`: `disconnect()` then `connect(timeout)`. -/
def reconnect (env : ConnEnv) (cfg : SWConfig) (timeout : Option ℕ) (s : ConnSt) :
    Bool × ConnSt × List CEv :=
  connect env cfg timeout (disconnect s)

/-! ## Derived notions the claims quantify over -/

/-- The spec's failure invariant for one envelope: a failed envelope carries
neither `feature_name` nor `data`. -/
def failShape (r : OperationResult) : Prop :=
  r.success = false → r.feature_name = none ∧ r.data = none

/-- Total number of edges over the solid bodies, as counted by the selection
loop (`GetEdges()` returning `None` or an empty array counts 0). -/
def edgeSum (bs : List (Option ℕ)) : ℕ := (bs.map (fun o => o.getD 0)).sum

/-- A handle whose health probe succeeds on its first `N` reads and raises on
every later one (the spec's "begins failing after N successful calls"
scenario). -/
def failingHandle (N : ℕ) : Handle :=
  ⟨fun k => if k < N then Except.ok ("2024") else Except.error ("probe failed")⟩

/-! ## Helper lemmas -/

theorem strData_append (a b : String) : (a ++ b).data = a.data ++ b.data := by
  cases a
  cases b
  rfl

theorem matchesAt_append_self (xs ys : List Char) : matchesAt xs (xs ++ ys) = true := by
  induction xs with
  | nil => rfl
  | cons c cs ih => simp [matchesAt, ih]

theorem matchesAt_append_left (p l r : List Char) (h : matchesAt p l = true) :
    matchesAt p (l ++ r) = true := by
  induction p generalizing l with
  | nil => rfl
  | cons x xs ih =>
    cases l with
    | nil => simp [matchesAt] at h
    | cons c cs =>
      simp [matchesAt] at h ⊢
      exact ⟨h.1, ih cs h.2⟩

theorem containsSeq_append_right (pat a b : List Char)
    (h : containsSeq pat a = true) : containsSeq pat (a ++ b) = true := by
  induction a with
  | nil =>
    simp [containsSeq] at h
    subst h
    cases b <;> simp [containsSeq, matchesAt]
  | cons c cs ih =>
    simp only [containsSeq, Bool.or_eq_true] at h ⊢
    rcases h with h | h
    · exact Or.inl (matchesAt_append_left _ _ _ h)
    · exact Or.inr (ih h)

theorem containsSeq_self (pat : List Char) : containsSeq pat pat = true := by
  cases pat with
  | nil => rfl
  | cons c cs =>
    simp only [containsSeq, Bool.or_eq_true]
    left
    have h := matchesAt_append_self (c :: cs) []
    simpa using h

theorem containsSeq_append_left (pat a l : List Char)
    (h : containsSeq pat l = true) : containsSeq pat (a ++ l) = true := by
  induction a with
  | nil => exact h
  | cons c cs ih =>
    simp only [List.cons_append, containsSeq, Bool.or_eq_true]
    exact Or.inr ih

theorem strContains_append (a b pat : String) (h : strContains a pat = true) :
    strContains (a ++ b) pat = true := by
  unfold strContains at h ⊢
  rw [strData_append]
  exact containsSeq_append_right _ _ _ h

theorem strContains_prefixed (pre e : String) : strContains (pre ++ e) e = true := by
  unfold strContains
  rw [strData_append]
  exact containsSeq_append_left _ _ _ (containsSeq_self _)

theorem coerceAll_none_of_mem (ps : List PyPoint) (p : PyPoint) (hp : p ∈ ps)
    (hn : coerce_point p = none) : coerceAll ps = none := by
  induction ps with
  | nil => simp at hp
  | cons q qs ih =>
    rcases List.mem_cons.mp hp with rfl | hmem
    · simp [coerceAll, hn]
    · cases hq : coerce_point q
      · simp [coerceAll, hq]
      · simp [coerceAll, hq, ih hmem]

theorem selectAllEdges_eq (bs : List (Option ℕ)) :
    selectAllEdges bs =
      (Except.ok (edgeSum bs), List.replicate (edgeSum bs) CallEv.selectEdge) := by
  induction bs with
  | nil => rfl
  | cons body rest ih =>
    cases body with
    | none =>
      rw [selectAllEdges, ih]
      simp only [opm_bind_ok, opm_pure, edgeSum, List.map_cons, List.sum_cons,
        Option.getD, List.replicate, List.nil_append, List.append_nil, Nat.zero_add]
    | some k =>
      rw [selectAllEdges, ih]
      simp only [opm_bind_ok, opm_pure, edgeSum, List.map_cons, List.sum_cons,
        Option.getD, List.replicate_add, List.append_nil]

/-! ## Per-operation failure-shape lemmas (used by the C1 theorem) -/

theorem failShape_create_new_document (b : B) (tp : Option String) :
    failShape (create_new_document b tp).1 := by
  unfold create_new_document
  cases hcn : b.connected <;>
  cases hco : b.connect_ok <;>
  rcases htp : tp with _ | p <;>
  rcases hup : b.getUserPref with e0 | t0 <;>
  rcases hnd : b.newDocument with e1 | (_ | u) <;>
  rcases hgt : b.getTitle with e2 | ttl <;>
  simp [failShape, fail]

theorem failShape_save_document (b : B) (p : String) :
    failShape (save_document b p).1 := by
  unfold save_document getActiveDocH
  cases hcn : b.connected <;>
  rcases had : b.activeDoc with e1 | (_ | u) <;>
  rcases hsv : b.saveAs3 with e2 | (_ | _) <;>
  simp [failShape, tryOp, fail]

theorem failShape_select_plane (b : B) (pl : PlaneType) :
    failShape (select_plane b pl).1 := by
  unfold select_plane getActiveDocH
  cases hcn : b.connected <;>
  rcases had : b.activeDoc with e1 | (_ | u) <;>
  rcases hcs : b.clearSelection with e2 | _ <;>
  rcases hsel : b.selectByID with e3 | (_ | _) <;>
  simp [failShape, tryOp, fail]

theorem failShape_insert_sketch (b : B) :
    failShape (insert_sketch b).1 := by
  unfold insert_sketch getActiveDocH
  cases hcn : b.connected <;>
  rcases had : b.activeDoc with e1 | (_ | u) <;>
  rcases his : b.insertSketch with e2 | _ <;>
  rcases hsk : b.activeSketch with e3 | (_ | s) <;>
  simp [failShape, tryOp, fail]

theorem failShape_create_sketch (b : B) (pl : PlaneType) :
    failShape (create_sketch b pl).1 := by
  have h1 := failShape_select_plane b pl
  have h2 := failShape_insert_sketch b
  unfold create_sketch
  rcases hsp : select_plane b pl with ⟨r1, t1⟩
  rcases hins : insert_sketch b with ⟨r2, t2⟩
  rw [hsp] at h1
  rw [hins] at h2
  by_cases hs : r1.success
  · simpa [hs] using h2
  · simpa [hs] using h1

theorem failShape_exit_sketch (b : B) :
    failShape (exit_sketch b).1 := by
  unfold exit_sketch getActiveDocH rebuildModelH
  cases hcn : b.connected <;>
  rcases had : b.activeDoc with e1 | (_ | u) <;>
  rcases hsk : b.activeSketch with e2 | (_ | s) <;>
  rcases his : b.insertSketch with e3 | _ <;>
  rcases hre : b.editRebuild with e4 | _ <;>
  simp [failShape, tryOp, fail]

theorem failShape_draw_rectangle (b : B) (cx cy w h : ℚ) :
    failShape (draw_rectangle b cx cy w h).1 := by
  unfold draw_rectangle getActiveDocH getActiveSketchH
  by_cases hwh : w ≤ 0 ∨ h ≤ 0
  · simp [hwh, failShape, fail]
  · rw [if_neg hwh]
    cases hcn : b.connected
    · simp [failShape, fail]
    · rcases had : b.activeDoc with e1 | (_ | u)
      · simp [failShape, tryOp, fail]
      · simp [failShape, tryOp, fail]
      · rcases hsk : b.activeSketch with e2 | (_ | s)
        · simp [failShape, tryOp, fail]
        · simp [failShape, tryOp, fail]
        · rcases hc1 : b.createCenterRect with e3 | (_ | (_ | n)) <;>
          rcases hc2 : b.createCornerRect with e4 | (_ | (_ | m)) <;>
          simp [failShape, tryOp, fail, segTruthy]

theorem failShape_draw_circle (b : B) (cx cy r : ℚ) :
    failShape (draw_circle b cx cy r).1 := by
  unfold draw_circle getActiveDocH getActiveSketchH
  by_cases hr : r ≤ 0
  · simp [hr, failShape, fail]
  · rw [if_neg hr]
    cases hcn : b.connected <;>
    rcases had : b.activeDoc with e1 | (_ | u) <;>
    rcases hsk : b.activeSketch with e2 | (_ | s) <;>
    rcases hcc : b.createCircle with e3 | (_ | c) <;>
    simp [failShape, tryOp, fail]

theorem failShape_draw_line (b : B) (x1 y1 x2 y2 : ℚ) :
    failShape (draw_line b x1 y1 x2 y2).1 := by
  unfold draw_line getActiveDocH getActiveSketchH
  cases hcn : b.connected <;>
  rcases had : b.activeDoc with e1 | (_ | u) <;>
  rcases hsk : b.activeSketch with e2 | (_ | s) <;>
  rcases hcl : b.createLine with e3 | (_ | c) <;>
  simp [failShape, tryOp, fail]

theorem failShape_draw_arc (b : B) (cx cy sx sy ex ey : ℚ) :
    failShape (draw_arc b cx cy sx sy ex ey).1 := by
  unfold draw_arc getActiveDocH getActiveSketchH
  cases hcn : b.connected <;>
  rcases had : b.activeDoc with e1 | (_ | u) <;>
  rcases hsk : b.activeSketch with e2 | (_ | s) <;>
  rcases hca : b.createArc with e3 | (_ | c) <;>
  simp [failShape, tryOp, fail]

theorem failShape_draw_polygon (b : B) (cx cy r : ℚ) (sides : ℤ) :
    failShape (draw_polygon b cx cy r sides).1 := by
  unfold draw_polygon getActiveDocH getActiveSketchH
  by_cases hs : sides < 3
  · simp [hs, failShape, fail]
  · rw [if_neg hs]
    by_cases hr : r ≤ 0
    · simp [hr, failShape, fail]
    · rw [if_neg hr]
      cases hcn : b.connected
      · simp [failShape, fail]
      · rcases had : b.activeDoc with e1 | (_ | u)
        · simp [failShape, tryOp, fail]
        · simp [failShape, tryOp, fail]
        · rcases hsk : b.activeSketch with e2 | (_ | s)
          · simp [failShape, tryOp, fail]
          · simp [failShape, tryOp, fail]
          · rcases hcp : b.createPolygon with e3 | (_ | (_ | n)) <;>
            simp [failShape, tryOp, fail, segTruthy]

theorem failShape_draw_spline (b : B) (pts : List (ℚ × ℚ)) :
    failShape (draw_spline b pts).1 := by
  unfold draw_spline getActiveDocH getActiveSketchH
  by_cases hl : pts.length < 2
  · simp [hl, failShape, fail]
  · rw [if_neg hl]
    cases hcn : b.connected
    · simp [failShape, fail]
    · rcases had : b.activeDoc with e1 | (_ | u)
      · simp [failShape, tryOp, fail]
      · simp [failShape, tryOp, fail]
      · rcases hsk : b.activeSketch with e2 | (_ | s)
        · simp [failShape, tryOp, fail]
        · simp [failShape, tryOp, fail]
        · rcases hs2 : b.createSpline2 with e3 | (_ | c) <;>
          rcases hsp : b.createSpline with e4 | (_ | _) <;>
          simp [failShape, tryOp, fail]

theorem failShape_extrude (b : B) (depth : ℚ) (operation direction : String) :
    failShape (extrude b depth operation direction).1 := by
  unfold extrude getActiveDocH
  by_cases hd : depth ≤ 0
  · simp [hd, failShape, fail]
  · rw [if_neg hd]
    by_cases hop : operation ≠ "boss" ∧ operation ≠ "cut"
    · simp [hop, failShape, fail]
    · rw [if_neg hop]
      by_cases hdir : direction ≠ "forward" ∧ direction ≠ "backward" ∧ direction ≠ "both"
      · simp [hdir, failShape, fail]
      · rw [if_neg hdir]
        cases hcn : b.connected
        · simp [failShape, fail]
        · rcases had : b.activeDoc with e1 | (_ | u)
          · simp [failShape, tryOp, fail]
          · simp [failShape, tryOp, fail]
          · by_cases hob : operation = "boss"
            · rcases hfe : b.featureExtrusion2 with e2 | (_ | nmO) <;>
              rcases hre : b.editRebuild with e3 | _ <;>
              simp [hob, failShape, tryOp, fail, rebuildModelH, hre]
            · rcases hfc : b.featureCut3 with e2 | (_ | nmO) <;>
              rcases hre : b.editRebuild with e3 | _ <;>
              simp [hob, failShape, tryOp, fail, rebuildModelH, hre]

theorem failShape_fillet (b : B) (r : ℚ) : failShape (fillet b r).1 := by
  unfold fillet getActiveDocH
  by_cases hr : r ≤ 0
  · simp [hr, failShape, fail]
  · rw [if_neg hr]
    cases hcn : b.connected
    · simp [failShape, fail]
    · rcases had : b.activeDoc with e1 | (_ | u)
      · simp [failShape, tryOp, fail]
      · simp [failShape, tryOp, fail]
      · rcases hcs : b.clearSelection with e2 | _
        · simp [failShape, tryOp, fail]
        · rcases hgb : b.getBodies with e3 | (_ | (_ | ⟨bd, rest⟩))
          · simp [failShape, tryOp, fail]
          · simp [failShape, tryOp, fail]
          · simp [failShape, tryOp, fail]
          · by_cases hsum : edgeSum (bd :: rest) = 0
            · simp [failShape, tryOp, fail, selectAllEdges_eq, hsum]
            · rcases hff : b.featureFillet3 with e4 | (_ | nmO) <;>
              rcases hre : b.editRebuild with e5 | _ <;>
              simp [failShape, tryOp, fail, selectAllEdges_eq, hsum, rebuildModelH, hre]

theorem failShape_chamfer (b : B) (d : ℚ) : failShape (chamfer b d).1 := by
  unfold chamfer getActiveDocH
  by_cases hd : d ≤ 0
  · simp [hd, failShape, fail]
  · rw [if_neg hd]
    cases hcn : b.connected
    · simp [failShape, fail]
    · rcases had : b.activeDoc with e1 | (_ | u)
      · simp [failShape, tryOp, fail]
      · simp [failShape, tryOp, fail]
      · rcases hcs : b.clearSelection with e2 | _
        · simp [failShape, tryOp, fail]
        · rcases hgb : b.getBodies with e3 | (_ | (_ | ⟨bd, rest⟩))
          · simp [failShape, tryOp, fail]
          · simp [failShape, tryOp, fail]
          · simp [failShape, tryOp, fail]
          · by_cases hsum : edgeSum (bd :: rest) = 0
            · simp [failShape, tryOp, fail, selectAllEdges_eq, hsum]
            · rcases hfc : b.insertFeatureChamfer with e4 | (_ | nmO) <;>
              rcases hre : b.editRebuild with e5 | _ <;>
              simp [failShape, tryOp, fail, selectAllEdges_eq, hsum, rebuildModelH, hre]

theorem failShape_capture_screenshot (b : B) :
    failShape (capture_screenshot b).1 := by
  unfold capture_screenshot getActiveDocH
  cases hcn : b.connected
  · simp [failShape, fail]
  · rcases had : b.activeDoc with e1 | (_ | u)
    · simp [failShape, tryOp, fail]
    · simp [failShape, tryOp, fail]
    · rcases hav : b.activeView with e2 | (_ | v)
      · simp [failShape, tryOp, fail]
      · simp [failShape, tryOp, fail]
      · rcases hsv : b.showNamedView with e3 | _ <;>
        rcases hzf : b.zoomToFit with e4 | _ <;>
        rcases hfr : b.readFrame with e5 | _ <;>
        rcases hhw : b.getHWnd with e6 | (_ | n) <;>
        simp [failShape, tryOp, fail]

theorem failShapeMS_get_model_state (b : B) :
    (get_model_state b).1.success = false →
    (get_model_state b).1.feature_name = none ∧
    ((get_model_state b).1.data = none ∨
     (get_model_state b).1.data = some [("model_state", DVal.null)]) := by
  unfold get_model_state getActiveDocH
  cases hcn : b.connected
  · simp [tryOp, fail]
  · rcases had : b.activeDoc with e1 | (_ | u)
    · simp [tryOp, fail]
    · simp [tryOp, fail]
    · rcases hgt : b.getTitle with e2 | ttl
      · simp [tryOp, fail]
      · rcases hgp : b.getPathName with e3 | pth
        · simp [tryOp, fail]
        · rcases hty : b.getType with e4 | ty
          · simp [tryOp, fail]
          · rcases hsf : b.getSaveFlag with e5 | sf
            · simp [tryOp, fail]
            · rcases hfe : b.features with e6 | fs <;>
              rcases hsk : b.activeSketch with e7 | (_ | s) <;>
              simp [tryOp, fail]

/-! ## Claim C1 -/

/-- C1 (counterexample): the claim "whenever `success == false`, `data` is
`None`" fails on `get_model_state`: its precondition-failure branch returns
`success = false` with `data = {"model_state": None}` populated
(`operations.py`, lines 1230-1236). -/
theorem c1_counterexample :
    (get_model_state { connected := false }).1.success = false ∧
    (get_model_state { connected := false }).1.data =
      some [("model_state", DVal.null)] ∧
    (get_model_state { connected := false }).1.data ≠ none := by
  refine ⟨rfl, rfl, ?_⟩
  rw [show (get_model_state { connected := false }).1.data =
    some [("model_state", DVal.null)] from rfl]
  simp

/-- C1 (amended): for every operation of the operations layer and every
behaviour of the external application, a result with `success = false` has
`feature_name = None`; its `data` is `None` for every operation except
`get_model_state`, whose precondition-failure branch carries
`{"model_state": None}` (its exception branch carries `None`). -/
theorem c1_amended :
    (∀ (b : B) (tp : Option String), failShape (create_new_document b tp).1) ∧
    (∀ (b : B) (p : String), failShape (save_document b p).1) ∧
    (∀ (b : B) (pl : PlaneType), failShape (select_plane b pl).1) ∧
    (∀ b : B, failShape (insert_sketch b).1) ∧
    (∀ (b : B) (pl : PlaneType), failShape (create_sketch b pl).1) ∧
    (∀ b : B, failShape (exit_sketch b).1) ∧
    (∀ (b : B) (cx cy w h : ℚ), failShape (draw_rectangle b cx cy w h).1) ∧
    (∀ (b : B) (cx cy r : ℚ), failShape (draw_circle b cx cy r).1) ∧
    (∀ (b : B) (x1 y1 x2 y2 : ℚ), failShape (draw_line b x1 y1 x2 y2).1) ∧
    (∀ (b : B) (cx cy sx sy ex ey : ℚ), failShape (draw_arc b cx cy sx sy ex ey).1) ∧
    (∀ (b : B) (cx cy r : ℚ) (sides : ℤ), failShape (draw_polygon b cx cy r sides).1) ∧
    (∀ (b : B) (pts : List (ℚ × ℚ)), failShape (draw_spline b pts).1) ∧
    (∀ (b : B) (d : ℚ) (op dir : String), failShape (extrude b d op dir).1) ∧
    (∀ (b : B) (r : ℚ), failShape (fillet b r).1) ∧
    (∀ (b : B) (d : ℚ), failShape (chamfer b d).1) ∧
    (∀ b : B, failShape (capture_screenshot b).1) ∧
    (∀ b : B, (get_model_state b).1.success = false →
      (get_model_state b).1.feature_name = none ∧
      ((get_model_state b).1.data = none ∨
       (get_model_state b).1.data = some [("model_state", DVal.null)])) :=
  ⟨failShape_create_new_document, failShape_save_document, failShape_select_plane,
   failShape_insert_sketch, failShape_create_sketch, failShape_exit_sketch,
   failShape_draw_rectangle, failShape_draw_circle, failShape_draw_line,
   failShape_draw_arc, failShape_draw_polygon, failShape_draw_spline,
   failShape_extrude, failShape_fillet, failShape_chamfer,
   failShape_capture_screenshot, failShapeMS_get_model_state⟩

/-- C1 (witness): `draw_circle` with no active sketch fails with both
`feature_name` and `data` empty, by the amended theorem. -/
theorem c1_witness :
    (draw_circle { activeSketch := Except.ok none } 0 0 5).1.success = false ∧
    (draw_circle { activeSketch := Except.ok none } 0 0 5).1.feature_name = none ∧
    (draw_circle { activeSketch := Except.ok none } 0 0 5).1.data = none :=
  have hs : (draw_circle { activeSketch := Except.ok none } 0 0 5).1.success = false := rfl
  have h := c1_amended.2.2.2.2.2.2.2.1 { activeSketch := Except.ok none } 0 0 5 hs
  ⟨hs, h.1, h.2⟩

/-! ## Claim C2 -/

/-- C2 (counterexample): the claim "any raising call yields `success == false`
with the exception text in the message" fails for the rebuild pass: when
`EditRebuild3` raises after a successful extrusion, `extrude` still returns
`success = true` (rebuild failure is logged only), and the exception text does
not appear in the message. -/
theorem c2_counterexample :
    ({ editRebuild := Except.error ("COM failure") } : B).editRebuild =
      Except.error ("COM failure") ∧
    (extrude { editRebuild := Except.error ("COM failure") } 10 "boss" "forward").1.success
      = true ∧
    CallEv.rebuild ∈
      (extrude { editRebuild := Except.error ("COM failure") } 10 "boss" "forward").2 ∧
    strContains
      (extrude { editRebuild := Except.error ("COM failure") } 10 "boss" "forward").1.message
      ("COM failure") = false := by
  have h : extrude { editRebuild := Except.error ("COM failure") } 10 "boss" "forward" =
      ({ success := true, message := "Extruded 10mm (boss)",
         feature_name := some ("Boss-Extrude1"),
         data := some [("depth_mm", DVal.num 10), ("operation", DVal.str ("boss")),
                       ("direction", DVal.str ("forward"))] },
       [CallEv.readActiveDoc,
        CallEv.featureExtrusion false SW_END_CONDITION_BLIND (mm_to_m 10),
        CallEv.rebuild]) := rfl
  rw [h]
  refine ⟨rfl, rfl, by simp, by decide⟩

/-- C2 (amended): no operation ever lets an exception escape (every operation
of the model is a total function into `OperationResult`); an exception that
reaches the operation boundary is converted to `success = false` with the
exception text appended to the operation's message prefix (and `pre ++ e`
always contains `e`); exceptions contained by inner handlers — the rebuild
pass in particular — do not downgrade an otherwise successful result, and
`draw_spline`'s two contained attempts produce its generic failure message. -/
theorem c2_amended :
    (∀ pre e : String, strContains (pre ++ e) e = true) ∧
    (∀ (b : B) (tp e : String), b.connected = true →
      b.newDocument = Except.error e →
      (create_new_document b (some tp)).1 = fail ("Failed to create new document: " ++ e)) ∧
    (∀ (b : B) (p e : String), b.connected = true →
      b.activeDoc = Except.ok (some ()) → b.saveAs3 = Except.error e →
      (save_document b p).1 = fail ("Failed to save document: " ++ e)) ∧
    (∀ (b : B) (pl : PlaneType) (e : String), b.connected = true →
      b.activeDoc = Except.ok (some ()) → b.clearSelection = Except.ok () →
      b.selectByID = Except.error e →
      (select_plane b pl).1 = fail ("Failed to select plane: " ++ e)) ∧
    (∀ (b : B) (e : String), b.connected = true →
      b.activeDoc = Except.ok (some ()) → b.insertSketch = Except.error e →
      (insert_sketch b).1 = fail ("Failed to insert sketch: " ++ e)) ∧
    (∀ (b : B) (pl : PlaneType) (e : String), b.connected = true →
      b.activeDoc = Except.ok (some ()) → b.clearSelection = Except.ok () →
      b.selectByID = Except.error e →
      (create_sketch b pl).1 = fail ("Failed to select plane: " ++ e)) ∧
    (∀ (b : B) (e : String), b.connected = true →
      b.activeDoc = Except.ok (some ()) → b.activeSketch = Except.error e →
      (exit_sketch b).1 = fail ("Failed to exit sketch: " ++ e)) ∧
    (∀ (b : B) (cx cy w h : ℚ) (s e : String), 0 < w → 0 < h →
      b.connected = true → b.activeDoc = Except.ok (some ()) →
      b.activeSketch = Except.ok (some s) → b.createCenterRect = Except.error e →
      (draw_rectangle b cx cy w h).1 = fail ("Failed to draw rectangle: " ++ e)) ∧
    (∀ (b : B) (cx cy r : ℚ) (s e : String), 0 < r →
      b.connected = true → b.activeDoc = Except.ok (some ()) →
      b.activeSketch = Except.ok (some s) → b.createCircle = Except.error e →
      (draw_circle b cx cy r).1 = fail ("Failed to draw circle: " ++ e)) ∧
    (∀ (b : B) (x1 y1 x2 y2 : ℚ) (s e : String),
      b.connected = true → b.activeDoc = Except.ok (some ()) →
      b.activeSketch = Except.ok (some s) → b.createLine = Except.error e →
      (draw_line b x1 y1 x2 y2).1 = fail ("Failed to draw line: " ++ e)) ∧
    (∀ (b : B) (cx cy sx sy ex ey : ℚ) (s e : String),
      b.connected = true → b.activeDoc = Except.ok (some ()) →
      b.activeSketch = Except.ok (some s) → b.createArc = Except.error e →
      (draw_arc b cx cy sx sy ex ey).1 = fail ("Failed to draw arc: " ++ e)) ∧
    (∀ (b : B) (cx cy r : ℚ) (sides : ℤ) (s e : String), 3 ≤ sides → 0 < r →
      b.connected = true → b.activeDoc = Except.ok (some ()) →
      b.activeSketch = Except.ok (some s) → b.createPolygon = Except.error e →
      (draw_polygon b cx cy r sides).1 = fail ("Failed to draw polygon: " ++ e)) ∧
    (∀ (b : B) (pts : List (ℚ × ℚ)) (s e1 e2 : String), 2 ≤ pts.length →
      b.connected = true → b.activeDoc = Except.ok (some ()) →
      b.activeSketch = Except.ok (some s) → b.createSpline2 = Except.error e1 →
      b.createSpline = Except.error e2 →
      (draw_spline b pts).1 =
        fail ("Failed to draw spline. Try using multiple line segments instead.")) ∧
    (∀ (b : B) (d : ℚ) (e : String), 0 < d →
      b.connected = true → b.activeDoc = Except.ok (some ()) →
      b.featureExtrusion2 = Except.error e →
      (extrude b d "boss" "forward").1 = fail ("Failed to extrude: " ++ e)) ∧
    (∀ (b : B) (r : ℚ) (e : String), 0 < r →
      b.connected = true → b.activeDoc = Except.ok (some ()) →
      b.clearSelection = Except.ok () → b.getBodies = Except.error e →
      (fillet b r).1 = fail ("Failed to create fillet: " ++ e)) ∧
    (∀ (b : B) (d : ℚ) (e : String), 0 < d →
      b.connected = true → b.activeDoc = Except.ok (some ()) →
      b.clearSelection = Except.ok () → b.getBodies = Except.error e →
      (chamfer b d).1 = fail ("Failed to create chamfer: " ++ e)) ∧
    (∀ (b : B) (e : String), b.connected = true →
      b.activeDoc = Except.ok (some ()) → b.activeView = Except.ok (some ()) →
      b.showNamedView = Except.ok () → b.zoomToFit = Except.ok () →
      b.readFrame = Except.error e →
      (capture_screenshot b).1 = fail ("Failed to capture screenshot: " ++ e)) ∧
    (∀ (b : B) (e : String), b.connected = true →
      b.activeDoc = Except.ok (some ()) → b.getTitle = Except.error e →
      (get_model_state b).1 = fail ("Failed to get model state: " ++ e)) ∧
    (∀ (b : B) (d : ℚ) (nmO : Option String) (e : String), 0 < d →
      b.connected = true → b.activeDoc = Except.ok (some ()) →
      b.featureExtrusion2 = Except.ok (some nmO) → b.editRebuild = Except.error e →
      (extrude b d "boss" "forward").1.success = true) := by
  refine ⟨strContains_prefixed, ?_, ?_, ?_, ?_, ?_, ?_, ?_, ?_, ?_, ?_, ?_, ?_, ?_,
    ?_, ?_, ?_, ?_, ?_⟩
  · intro b tp e hcn hnd
    simp [create_new_document, hcn, hnd, fail]
  · intro b p e hcn had hsv
    simp [save_document, getActiveDocH, tryOp, hcn, had, hsv, fail]
  · intro b pl e hcn had hcs hsel
    simp [select_plane, getActiveDocH, tryOp, hcn, had, hcs, hsel, fail]
  · intro b e hcn had his
    simp [insert_sketch, getActiveDocH, tryOp, hcn, had, his, fail]
  · intro b pl e hcn had hcs hsel
    simp [create_sketch, select_plane, getActiveDocH, tryOp, hcn, had, hcs, hsel, fail]
  · intro b e hcn had hsk
    simp [exit_sketch, getActiveDocH, tryOp, hcn, had, hsk, fail]
  · intro b cx cy w h s e hw hh hcn had hsk hc1
    unfold draw_rectangle
    rw [if_neg (by push_neg; exact ⟨hw, hh⟩)]
    simp [getActiveDocH, getActiveSketchH, tryOp, hcn, had, hsk, hc1, fail]
  · intro b cx cy r s e hr hcn had hsk hcc
    unfold draw_circle
    rw [if_neg (not_le.mpr hr)]
    simp [getActiveDocH, getActiveSketchH, tryOp, hcn, had, hsk, hcc, fail]
  · intro b x1 y1 x2 y2 s e hcn had hsk hcl
    simp [draw_line, getActiveDocH, getActiveSketchH, tryOp, hcn, had, hsk, hcl, fail]
  · intro b cx cy sx sy ex ey s e hcn had hsk hca
    simp [draw_arc, getActiveDocH, getActiveSketchH, tryOp, hcn, had, hsk, hca, fail]
  · intro b cx cy r sides s e hs3 hr hcn had hsk hcp
    unfold draw_polygon
    rw [if_neg (not_lt.mpr hs3), if_neg (not_le.mpr hr)]
    simp [getActiveDocH, getActiveSketchH, tryOp, hcn, had, hsk, hcp, fail]
  · intro b pts s e1 e2 hlen hcn had hsk hs2 hsp
    unfold draw_spline
    rw [if_neg (not_lt.mpr hlen)]
    simp [getActiveDocH, getActiveSketchH, tryOp, hcn, had, hsk, hs2, hsp, fail]
  · intro b d e hd hcn had hfe
    unfold extrude
    rw [if_neg (not_le.mpr hd)]
    simp [getActiveDocH, tryOp, hcn, had, hfe, fail]
  · intro b r e hr hcn had hcs hgb
    unfold fillet
    rw [if_neg (not_le.mpr hr)]
    simp [getActiveDocH, tryOp, hcn, had, hcs, hgb, fail]
  · intro b d e hd hcn had hcs hgb
    unfold chamfer
    rw [if_neg (not_le.mpr hd)]
    simp [getActiveDocH, tryOp, hcn, had, hcs, hgb, fail]
  · intro b e hcn had hav hsv hzf hfr
    simp [capture_screenshot, getActiveDocH, tryOp, hcn, had, hav, hsv, hzf, hfr, fail]
  · intro b e hcn had hgt
    simp [get_model_state, getActiveDocH, tryOp, hcn, had, hgt, fail]
  · intro b d nmO e hd hcn had hfe hre
    unfold extrude
    rw [if_neg (not_le.mpr hd)]
    simp [getActiveDocH, rebuildModelH, tryOp, hcn, had, hfe, hre, fail]

/-- C2 (witness): a raising `CreateCircleByRadius` and a raising `GetTitle`
are converted at the boundary to failed envelopes embedding the exception
text, by the amended theorem. -/
theorem c2_witness :
    (draw_circle { createCircle := Except.error ("COM error 0x80004005") }
      0 0 5).1 = fail ("Failed to draw circle: " ++ "COM error 0x80004005") ∧
    (get_model_state { getTitle := Except.error ("boom") }).1 =
      fail ("Failed to get model state: " ++ "boom") ∧
    strContains ("Failed to draw circle: " ++ "COM error 0x80004005")
      ("COM error 0x80004005") = true :=
  ⟨c2_amended.2.2.2.2.2.2.2.2.1 { createCircle := Except.error ("COM error 0x80004005") }
     0 0 5 "Sketch1" "COM error 0x80004005" (by norm_num) rfl rfl rfl rfl,
   c2_amended.2.2.2.2.2.2.2.2.2.2.2.2.2.2.2.2.2.1
     { getTitle := Except.error ("boom") } "boom" rfl rfl rfl,
   c2_amended.1 ("Failed to draw circle: ") ("COM error 0x80004005")⟩

/-! ## Claim C3 -/

/-- C3 (counterexample): `exit_sketch` with no active sketch is not a no-op
and does invoke the external sketch-exit primitive: it returns the generic
success envelope but still calls `InsertSketch(True)` (the toggle) and the
rebuild. -/
theorem c3_counterexample :
    (exit_sketch { activeSketch := Except.ok none }).1 =
      { success := true, message := "Exited sketch mode", feature_name := none,
        data := none } ∧
    CallEv.insertSketchCall ∈ (exit_sketch { activeSketch := Except.ok none }).2 ∧
    CallEv.rebuild ∈ (exit_sketch { activeSketch := Except.ok none }).2 := by
  have h : exit_sketch { activeSketch := Except.ok none } =
      ({ success := true, message := "Exited sketch mode" },
       [CallEv.readActiveDoc, CallEv.readActiveSketch, CallEv.insertSketchCall,
        CallEv.rebuild]) := rfl
  rw [h]
  refine ⟨rfl, ?_, ?_⟩ <;> simp

/-- C3 (amended): with a document open and no active sketch, `exit_sketch`
returns `success = true` with the generic message and no `feature_name`; the
external calls it makes are exactly the active-sketch read, the
`InsertSketch(True)` toggle and the rebuild — none of which carries a sketch
name. -/
theorem c3_amended (b : B) (h1 : b.connected = true)
    (h2 : b.activeDoc = Except.ok (some ())) (h3 : b.activeSketch = Except.ok none)
    (h4 : b.insertSketch = Except.ok ()) :
    exit_sketch b =
      ({ success := true, message := "Exited sketch mode", feature_name := none,
         data := none },
       [CallEv.readActiveDoc, CallEv.readActiveSketch, CallEv.insertSketchCall,
        CallEv.rebuild]) := by
  unfold exit_sketch getActiveDocH rebuildModelH
  rcases hre : b.editRebuild with e | u <;>
    simp [h1, h2, h3, h4, hre, tryOp]

/-- C3 (witness): the amended theorem applied to the healthy behaviour with
no active sketch. -/
theorem c3_witness :
    ({ activeSketch := Except.ok none } : B).connected = true ∧
    exit_sketch { activeSketch := Except.ok none } =
      ({ success := true, message := "Exited sketch mode", feature_name := none,
         data := none },
       [CallEv.readActiveDoc, CallEv.readActiveSketch, CallEv.insertSketchCall,
        CallEv.rebuild]) :=
  ⟨rfl, c3_amended { activeSketch := Except.ok none } rfl rfl rfl rfl⟩

/-! ## Claim C4 -/

/-- C4 (counterexample): in the binary64 model, the round trip
`m_to_mm(mm_to_m(v))` does not recover `v` for `v` the double nearest `0.9`:
the result is one ulp higher (`0.9000000000000001`), both as a represented
float and as an exact rational value. -/
theorem c4_counterexample :
    m_to_mmD (mm_to_mD d09) ≠ d09 ∧
    dyVal (m_to_mmD (mm_to_mD d09)) ≠ dyVal d09 := by
  constructor
  · decide
  · have h1 : m_to_mmD (mm_to_mD d09) = (8106479329266894, -53) := by decide
    have h2 : d09 = (8106479329266893, -53) := by decide
    rw [h1, h2]
    simp [dyVal]
    intro h
    norm_num at h

/-- C4 (amended): in exact arithmetic the conversion forwards exactly
`v × 0.001` and the two scale factors are exact inverses, so the round trip
is the identity; exact recovery for IEEE doubles holds only up to one unit in
the last place (the counterexample shows it can fail). -/
theorem c4_amended (v : ℚ) :
    mm_to_m v = v * (1/1000) ∧ m_to_mm (mm_to_m v) = v := by
  constructor
  · rfl
  · unfold m_to_mm mm_to_m MM_TO_M M_TO_MM
    ring

/-! ## Claim C5 -/

/-- C5 (counterexample): the claim "every non-positive length/radius yields a
message containing `positive`" fails at `draw_polygon(radius=-1, sides=2)`:
the sides check runs first, so the message mentions `3` and does not contain
`positive`. -/
theorem c5_counterexample :
    ((-1 : ℚ) ≤ 0) ∧
    draw_polygon {} 0 0 (-1) 2 =
      (fail ("Polygon must have at least 3 sides. Got sides=2"), []) ∧
    strContains ("Polygon must have at least 3 sides. Got sides=2") ("positive") = false ∧
    strContains ("Polygon must have at least 3 sides. Got sides=2") ("3") = true := by
  refine ⟨by norm_num, by rfl, by decide, by decide⟩

/-- C5 (amended): local validation rejects before any external call
(`trace = []`): non-positive lengths/radii/depths/distances yield
`success = false` with `positive` in the message, and `draw_polygon` with
`sides < 3` yields a message mentioning `3`; for `draw_polygon` the sides
check precedes the radius check, so the `positive` message is guaranteed only
when `sides ≥ 3`. -/
theorem c5_amended :
    (∀ (b : B) (cx cy w h : ℚ), w ≤ 0 ∨ h ≤ 0 →
      (draw_rectangle b cx cy w h).1.success = false ∧
      strContains (draw_rectangle b cx cy w h).1.message ("positive") = true ∧
      (draw_rectangle b cx cy w h).2 = []) ∧
    (∀ (b : B) (cx cy r : ℚ), r ≤ 0 →
      (draw_circle b cx cy r).1.success = false ∧
      strContains (draw_circle b cx cy r).1.message ("positive") = true ∧
      (draw_circle b cx cy r).2 = []) ∧
    (∀ (b : B) (cx cy r : ℚ) (sides : ℤ), sides < 3 →
      (draw_polygon b cx cy r sides).1.success = false ∧
      strContains (draw_polygon b cx cy r sides).1.message ("3") = true ∧
      (draw_polygon b cx cy r sides).2 = []) ∧
    (∀ (b : B) (cx cy r : ℚ) (sides : ℤ), 3 ≤ sides → r ≤ 0 →
      (draw_polygon b cx cy r sides).1.success = false ∧
      strContains (draw_polygon b cx cy r sides).1.message ("positive") = true ∧
      (draw_polygon b cx cy r sides).2 = []) ∧
    (∀ (b : B) (d : ℚ) (op dir : String), d ≤ 0 →
      (extrude b d op dir).1.success = false ∧
      strContains (extrude b d op dir).1.message ("positive") = true ∧
      (extrude b d op dir).2 = []) ∧
    (∀ (b : B) (r : ℚ), r ≤ 0 →
      (fillet b r).1.success = false ∧
      strContains (fillet b r).1.message ("positive") = true ∧
      (fillet b r).2 = []) ∧
    (∀ (b : B) (d : ℚ), d ≤ 0 →
      (chamfer b d).1.success = false ∧
      strContains (chamfer b d).1.message ("positive") = true ∧
      (chamfer b d).2 = []) := by
  refine ⟨?_, ?_, ?_, ?_, ?_, ?_, ?_⟩
  · intro b cx cy w h hw
    unfold draw_rectangle
    rw [if_pos hw]
    exact ⟨rfl, strContains_append _ _ _ (strContains_append _ _ _
      (strContains_append _ _ _ (by decide))), rfl⟩
  · intro b cx cy r hr
    unfold draw_circle
    rw [if_pos hr]
    exact ⟨rfl, strContains_append _ _ _ (by decide), rfl⟩
  · intro b cx cy r sides hs
    unfold draw_polygon
    rw [if_pos hs]
    exact ⟨rfl, strContains_append _ _ _ (by decide), rfl⟩
  · intro b cx cy r sides hs hr
    unfold draw_polygon
    rw [if_neg (not_lt.mpr hs), if_pos hr]
    exact ⟨rfl, strContains_append _ _ _ (by decide), rfl⟩
  · intro b d op dir hd
    unfold extrude
    rw [if_pos hd]
    exact ⟨rfl, strContains_append _ _ _ (by decide), rfl⟩
  · intro b r hr
    unfold fillet
    rw [if_pos hr]
    exact ⟨rfl, strContains_append _ _ _ (by decide), rfl⟩
  · intro b d hd
    unfold chamfer
    rw [if_pos hd]
    exact ⟨rfl, strContains_append _ _ _ (by decide), rfl⟩

/-- C5 (witness): a negative circle radius and a 2-sided polygon, rejected
locally with the documented messages and no external call, by the amended
theorem. -/
theorem c5_witness :
    (draw_circle {} 0 0 (-5)).1.success = false ∧
    strContains (draw_circle {} 0 0 (-5)).1.message ("positive") = true ∧
    (draw_circle {} 0 0 (-5)).2 = [] ∧
    (draw_polygon {} 0 0 10 2).1.success = false ∧
    strContains (draw_polygon {} 0 0 10 2).1.message ("3") = true ∧
    (draw_polygon {} 0 0 10 2).2 = [] :=
  have h1 := c5_amended.2.1 {} 0 0 (-5) (by norm_num)
  have h2 := c5_amended.2.2.1 {} 0 0 10 2 (by norm_num)
  ⟨h1.1, h1.2.1, h1.2.2, h2.1, h2.2.1, h2.2.2⟩

/-! ## Claim C6 -/

/-- C6 (counterexample): a three-element list is not a two-element ordered
pair, yet `_coerce_point` accepts it (taking the first two entries), and a
spline request containing it passes local validation. -/
theorem c6_counterexample :
    coerce_point (PyPoint.seq [1, 2, 3]) = some (1, 2) ∧
    normalize_points [PyPoint.seq [0, 0], PyPoint.seq [1, 2, 3]] =
      (some [(0, 0), (1, 2)], none) := by
  constructor
  · rfl
  · rfl

/-- C6 (amended): a point fails coercion exactly when it is neither a mapping
containing keys `x` and `y` nor a list/tuple of length at least 2 (longer
sequences and mappings with extra keys are accepted, extras ignored); any
failing point makes `_normalize_points` reject the whole request, and fewer
than 2 points is always rejected — at the tool layer and again in the
operations layer before any external call. -/
theorem c6_amended :
    (∀ fields : List (String × ℚ), coerce_point (PyPoint.dict fields) = none ↔
      fields.lookup ("x") = none ∨ fields.lookup ("y") = none) ∧
    (∀ xs : List ℚ, coerce_point (PyPoint.seq xs) = none ↔ xs.length < 2) ∧
    (coerce_point PyPoint.other = none) ∧
    (∀ (points : List PyPoint) (p : PyPoint), p ∈ points → coerce_point p = none →
      normalize_points points =
        (none, some ("Each point must be a dict with x/y or a list/tuple of [x, y]."))) ∧
    (∀ points : List PyPoint, points.length < 2 → (normalize_points points).1 = none) ∧
    (∀ (b : B) (pts : List (ℚ × ℚ)), pts.length < 2 →
      draw_spline b pts =
        (fail ("Spline requires at least 2 points. Got " ++ toString pts.length ++
          " points."), [])) := by
  refine ⟨?_, ?_, rfl, ?_, ?_, ?_⟩
  · intro fields
    cases hx : fields.lookup ("x") <;> cases hy : fields.lookup ("y") <;>
      simp [coerce_point, hx, hy]
  · intro xs
    by_cases h : 2 ≤ xs.length
    · simp [coerce_point, h]
    · simp [coerce_point, h]
      omega
  · intro points p hp hn
    have h0 : points.length ≠ 0 := by
      cases points
      · simp at hp
      · simp
    have hca := coerceAll_none_of_mem points p hp hn
    simp [normalize_points, h0, hca]
  · intro points hlen
    rcases points with _ | ⟨p, ps⟩
    · simp [normalize_points]
    · rcases ps with _ | ⟨q, qs⟩
      · cases hp : coerce_point p <;>
          simp [normalize_points, coerceAll, hp]
      · simp at hlen
        omega
  · intro b pts h
    unfold draw_spline
    rw [if_pos h]

/-- C6 (witness): an unparseable point, a single-point list, and the
operations-layer short-list rejection, by the amended theorem. -/
theorem c6_witness :
    coerce_point PyPoint.other = none ∧
    normalize_points [PyPoint.other] =
      (none, some ("Each point must be a dict with x/y or a list/tuple of [x, y].")) ∧
    (normalize_points [PyPoint.seq [1, 2]]).1 = none ∧
    draw_spline {} [(1, 2)] =
      (fail ("Spline requires at least 2 points. Got 1 points."), []) :=
  ⟨c6_amended.2.2.1,
   c6_amended.2.2.2.1 [PyPoint.other] PyPoint.other (by simp) c6_amended.2.2.1,
   c6_amended.2.2.2.2.1 [PyPoint.seq [1, 2]] (by decide),
   c6_amended.2.2.2.2.2 {} [(1, 2)] (by decide)⟩

/-! ## Claim C7 -/

/-- C7: the forwarded save path always ends in `.SLDPRT`
(case-insensitively, matching the source's `upper()` check); a path lacking
the extension has it appended, and every `SaveAs3` call `save_document` makes
forwards exactly the normalized path. -/
theorem c7_save_extension :
    (∀ p : String,
      endsSeq (pyUpper (normalizeSavePath p)).data (".SLDPRT").data = true) ∧
    (∀ p : String, endsSeq (pyUpper p).data (".SLDPRT").data = false →
      normalizeSavePath p = p ++ ".SLDPRT") ∧
    (∀ (b : B) (p q : String), CallEv.saveAs q ∈ (save_document b p).2 →
      q = normalizeSavePath p) := by
  have hmap : (".SLDPRT").data.map Char.toUpper = (".SLDPRT").data := by decide
  refine ⟨?_, ?_, ?_⟩
  · intro p
    unfold normalizeSavePath
    by_cases h : endsSeq (pyUpper p).data (".SLDPRT").data = true
    · rw [if_pos h]
      exact h
    · rw [if_neg h]
      simp only [pyUpper, endsSeq, strData_append, List.map_append, hmap,
        List.reverse_append]
      exact matchesAt_append_self _ _
  · intro p h
    unfold normalizeSavePath
    rw [h]
    simp
  · intro b p q
    unfold save_document getActiveDocH
    cases hcn : b.connected
    · simp [tryOp]
    · rcases had : b.activeDoc with e | od
      · simp [tryOp]
      · rcases od with _ | u
        · simp [tryOp]
        · rcases hsv : b.saveAs3 with e2 | r
          · simp [tryOp]
          · cases r <;> simp [tryOp]

/-- C7 (witness): a path without the extension is forwarded with `.SLDPRT`
appended, by the theorem. -/
theorem c7_witness :
    endsSeq (pyUpper ("C:\\parts\\test")).data (".SLDPRT").data = false ∧
    normalizeSavePath ("C:\\parts\\test") = "C:\\parts\\test" ++ ".SLDPRT" ∧
    endsSeq (pyUpper (normalizeSavePath ("C:\\parts\\test"))).data
      (".SLDPRT").data = true :=
  ⟨by decide,
   c7_save_extension.2.1 ("C:\\parts\\test") (by decide),
   c7_save_extension.1 ("C:\\parts\\test")⟩

/-! ## Claim C8 -/

/-- C8: a connected manager whose probe raises transitions to disconnected and
reports `false` (`check_connection` is a total function — the raise never
escapes); a manager with `is_connected = false` runs the full adopt-or-launch
sequence on `connect()` instead of short-circuiting; and for a handle failing
after `N` good probes, the first `N` checks succeed and the `(N+1)`-th flips
the manager to disconnected. -/
theorem c8_health_check :
    (∀ (s : ConnSt) (h : Handle) (e : String), s.app = some h → s.isConn = true →
      h.probe s.probeCt = Except.error e →
      check_connection s =
        (false, { s with isConn := false, probeCt := s.probeCt + 1 }, [CEv.probeEv]) ∧
      is_connected { s with isConn := false, probeCt := s.probeCt + 1 } = false) ∧
    (∀ (env : ConnEnv) (cfg : SWConfig) (timeout : Option ℕ) (s : ConnSt),
      is_connected s = false →
      connect env cfg timeout s = connectAttempt env cfg timeout s) ∧
    (∀ N k, k < N →
      check_connection ⟨some (failingHandle N), true, k, 0⟩ =
        (true, ⟨some (failingHandle N), true, k + 1, 0⟩, [CEv.probeEv])) ∧
    (∀ N : ℕ,
      check_connection ⟨some (failingHandle N), true, N, 0⟩ =
        (false, ⟨some (failingHandle N), false, N + 1, 0⟩, [CEv.probeEv]) ∧
      is_connected ⟨some (failingHandle N), false, N + 1, 0⟩ = false) := by
  refine ⟨?_, ?_, ?_, ?_⟩
  · intro s h e h1 h2 h3
    rcases s with ⟨app, ic, pc, dc⟩
    simp only at h1 h2 h3
    subst h1
    subst h2
    simp [check_connection, h3, is_connected]
  · intro env cfg timeout s h
    simp [connect, h]
  · intro N k hk
    simp [check_connection, failingHandle, hk]
  · intro N
    constructor
    · simp [check_connection, failingHandle]
    · simp [is_connected]

/-- C8 (witness): the `N = 2` scenario — two healthy checks, then the third
disconnects, after which `connect()` runs the full attempt sequence — by the
theorem. -/
theorem c8_witness :
    (check_connection ⟨some (failingHandle 2), true, 0, 0⟩ =
      (true, ⟨some (failingHandle 2), true, 1, 0⟩, [CEv.probeEv])) ∧
    (check_connection ⟨some (failingHandle 2), true, 1, 0⟩ =
      (true, ⟨some (failingHandle 2), true, 2, 0⟩, [CEv.probeEv])) ∧
    (check_connection ⟨some (failingHandle 2), true, 2, 0⟩ =
      (false, ⟨some (failingHandle 2), false, 3, 0⟩, [CEv.probeEv])) ∧
    connect ⟨fun _ => Except.error ("down"), Except.ok (), Except.ok ()⟩
      { auto_launch := false } none ⟨some (failingHandle 2), false, 3, 0⟩ =
      connectAttempt ⟨fun _ => Except.error ("down"), Except.ok (), Except.ok ()⟩
        { auto_launch := false } none ⟨some (failingHandle 2), false, 3, 0⟩ :=
  ⟨c8_health_check.2.2.1 2 0 (by decide),
   c8_health_check.2.2.1 2 1 (by decide),
   (c8_health_check.2.2.2 2).1,
   c8_health_check.2.1 _ _ _ _ rfl⟩

/-! ## Claim C9 -/

/-- C9: `fillet` and `chamfer` select every edge of every solid body (one
`Select4` per edge, no per-edge selection parameter); an absent or empty body
list is the "create geometry first" failure, and a successful result's
`data.edge_count` equals the number of `Select4` calls in the trace. -/
theorem c9_fillet_chamfer :
    (∀ (b : B) (r : ℚ), 0 < r → b.connected = true →
      b.activeDoc = Except.ok (some ()) → b.clearSelection = Except.ok () →
      (b.getBodies = Except.ok none ∨ b.getBodies = Except.ok (some [])) →
      fillet b r =
        (fail ("No solid bodies found. Create geometry first using extrude."),
         [CallEv.readActiveDoc, CallEv.clearSelection, CallEv.getBodies]) ∧
      chamfer b r =
        (fail ("No solid bodies found. Create geometry first using extrude."),
         [CallEv.readActiveDoc, CallEv.clearSelection, CallEv.getBodies])) ∧
    (∀ (b : B) (r : ℚ) (bs : List (Option ℕ)) (nmO : Option String), 0 < r →
      b.connected = true → b.activeDoc = Except.ok (some ()) →
      b.clearSelection = Except.ok () → b.getBodies = Except.ok (some bs) →
      bs.length ≠ 0 → edgeSum bs ≠ 0 →
      b.featureFillet3 = Except.ok (some nmO) →
      (fillet b r).1.success = true ∧
      (fillet b r).1.data = some [("radius_mm", DVal.num r),
        ("edge_count", DVal.int (edgeSum bs))] ∧
      (fillet b r).2 = [CallEv.readActiveDoc, CallEv.clearSelection, CallEv.getBodies] ++
        List.replicate (edgeSum bs) CallEv.selectEdge ++
        [CallEv.featureFillet (mm_to_m r), CallEv.rebuild] ∧
      (fillet b r).2.count CallEv.selectEdge = edgeSum bs) ∧
    (∀ (b : B) (r : ℚ) (bs : List (Option ℕ)) (nmO : Option String), 0 < r →
      b.connected = true → b.activeDoc = Except.ok (some ()) →
      b.clearSelection = Except.ok () → b.getBodies = Except.ok (some bs) →
      bs.length ≠ 0 → edgeSum bs ≠ 0 →
      b.insertFeatureChamfer = Except.ok (some nmO) →
      (chamfer b r).1.success = true ∧
      (chamfer b r).1.data = some [("distance_mm", DVal.num r),
        ("edge_count", DVal.int (edgeSum bs))] ∧
      (chamfer b r).2 = [CallEv.readActiveDoc, CallEv.clearSelection, CallEv.getBodies] ++
        List.replicate (edgeSum bs) CallEv.selectEdge ++
        [CallEv.insertChamfer (mm_to_m r), CallEv.rebuild] ∧
      (chamfer b r).2.count CallEv.selectEdge = edgeSum bs) := by
  refine ⟨?_, ?_, ?_⟩
  · intro b r hr hcn had hcs hgb
    constructor <;>
    · first
      | (unfold fillet getActiveDocH)
      | (unfold chamfer getActiveDocH)
      rw [if_neg (not_le.mpr hr)]
      rcases hgb with hgb | hgb <;>
        simp [tryOp, hcn, had, hcs, hgb]
  · intro b r bs nmO hr hcn had hcs hgb hlen hsum hff
    have hbs : bs ≠ [] := by
      intro hnil
      exact hlen (by simp [hnil])
    unfold fillet getActiveDocH rebuildModelH
    rw [if_neg (not_le.mpr hr)]
    rcases hre : b.editRebuild with e | u <;>
      simp [tryOp, hcn, had, hcs, hgb, selectAllEdges_eq, hlen, hsum, hff, hre, hbs,
        List.count_append, List.count_replicate_self, List.count_cons, List.count_nil]
  · intro b r bs nmO hr hcn had hcs hgb hlen hsum hff
    have hbs : bs ≠ [] := by
      intro hnil
      exact hlen (by simp [hnil])
    unfold chamfer getActiveDocH rebuildModelH
    rw [if_neg (not_le.mpr hr)]
    rcases hre : b.editRebuild with e | u <;>
      simp [tryOp, hcn, had, hcs, hgb, selectAllEdges_eq, hlen, hsum, hff, hre, hbs,
        List.count_append, List.count_replicate_self, List.count_cons, List.count_nil]

/-- C9 (witness): the spec's example — a body exposing 12 edges filleted with
radius 5 reports success with `edge_count = 12` and 12 selection calls — and
the no-body failure, by the theorem. -/
theorem c9_witness :
    (fillet {} 5).1.success = true ∧
    (fillet {} 5).1.data = some [("radius_mm", DVal.num 5),
      ("edge_count", DVal.int 12)] ∧
    (fillet {} 5).2.count CallEv.selectEdge = 12 ∧
    (fillet { getBodies := Except.ok none } 5).1 =
      fail ("No solid bodies found. Create geometry first using extrude.") :=
  have h := c9_fillet_chamfer.2.1 {} 5 [some 12] (some ("Fillet1")) (by norm_num)
    rfl rfl rfl rfl (by decide) (by decide) rfl
  have h0 := (c9_fillet_chamfer.1 { getBodies := Except.ok none } 5 (by norm_num)
    rfl rfl rfl (Or.inl rfl)).1
  ⟨h.1, h.2.1, h.2.2.2, by rw [h0]⟩

/-! ## Claim C10 -/

/-- C10: `connect()` on an already-connected manager returns `true`
immediately: the state is unchanged and no environment interaction (no probe,
no dispatch, no launch) occurs, for any timeout. -/
theorem c10_connect_idempotent (env : ConnEnv) (cfg : SWConfig) (timeout : Option ℕ)
    (s : ConnSt) (h : is_connected s = true) :
    connect env cfg timeout s = (true, s, []) := by
  simp [connect, h]

/-- C10 (witness): a concrete connected state, by the theorem. -/
theorem c10_witness :
    is_connected ⟨some ⟨fun _ => Except.ok ("2024")⟩, true, 0, 0⟩ = true ∧
    connect ⟨fun _ => Except.error ("ignored"), Except.ok (), Except.ok ()⟩ {} (some 5)
      ⟨some ⟨fun _ => Except.ok ("2024")⟩, true, 0, 0⟩ =
      (true, ⟨some ⟨fun _ => Except.ok ("2024")⟩, true, 0, 0⟩, []) :=
  ⟨rfl, c10_connect_idempotent _ _ _ _ rfl⟩

end ForgeAI
